import Mathlib

/-!
Shallow embedding of `docs/generate_diagrams.py` from the gkos2
repository (GKOS chord diagram generator).

Modelling conventions:
* Python floats are modelled as exact rationals (`ℚ`); the arithmetic
  performed by the script (sums, halving, fixed decimal factors) is
  exact at the precision the claims are about.
* The mutable `Svg` part list is modelled as a pure `List Prim`
  accumulated in draw order; `Svg.build` packages it together with the
  computed canvas size into an `SvgDoc`.  Serialisation of an `SvgDoc`
  to text is a fixed deterministic function of that data and is not
  re-modelled.
* The `entries` dict produced by `parse_layout` is modelled as a
  function `Nat → Option LayoutEntry`.
* `generate_svg` is split into one Lean definition per commented
  section of the Python source; the top level definition concatenates
  them in source order.
-/

namespace GKOS

/-- Key bit constant `A = 1`. -/
def A : Nat := 1

/-- Key bit constant `B = 2`. -/
def B : Nat := 2

/-- Key bit constant `C = 4`. -/
def C : Nat := 4

/-- Key bit constant `D = 8`. -/
def D : Nat := 8

/-- Key bit constant `E = 16`. -/
def E : Nat := 16

/-- Key bit constant `F = 32`. -/
def F : Nat := 32

/-- `KEYS = [A, B, C, D, E, F]`, the fixed global key order. -/
def KEYS : List Nat := [A, B, C, D, E, F]

/-- `KNAME`: single-letter name of each key. -/
def KNAME (k : Nat) : String :=
  if k = A then "A" else if k = B then "B" else if k = C then "C"
  else if k = D then "D" else if k = E then "E" else if k = F then "F"
  else ""

/-- `KCOL`: column (0 for the left hand keys A,B,C; 1 for D,E,F). -/
def KCOL (k : Nat) : ℚ :=
  if k = A ∨ k = B ∨ k = C then 0 else 1

/-- `KROW`: row of each key (A,D → 0; B,E → 1; C,F → 2). -/
def KROW (k : Nat) : Nat :=
  if k = A ∨ k = D then 0 else if k = B ∨ k = E then 1 else 2

/-- `LEFT = {A, B, C}` as a list. -/
def LEFTKEYS : List Nat := [A, B, C]

/-- `RIGHT = {D, E, F}` as a list. -/
def RIGHTKEYS : List Nat := [D, E, F]

/-- `bits(mask)`: list of key constants pressed in the bitmask,
in `KEYS` order (a Python list comprehension filtering `KEYS`). -/
def bits (mask : Nat) : List Nat :=
  KEYS.filter (fun k => mask &&& k ≠ 0)

/-- `chord_label(mask)`: concatenation of member key names. -/
def chord_label (mask : Nat) : String :=
  String.join ((bits mask).map KNAME)

/-- `pressed <= LEFT` test of the source (`set(bits(mask)) <= LEFT`). -/
def onLeft (mask : Nat) : Bool :=
  (bits mask).all (fun k => LEFTKEYS.contains k)

/-- `pressed <= RIGHT` test of the source. -/
def onRight (mask : Nat) : Bool :=
  (bits mask).all (fun k => RIGHTKEYS.contains k)

/-- The `_ACTION` display table (symbolic action name → glyph). -/
def ACTION : List (String × String) :=
  [("UpArrow", "↑"), ("DownArrow", "↓"),
   ("LeftArrow", "←"), ("RightArrow", "→"),
   ("backspace", "⌫"), ("space", "␣"), ("enter", "⏎"),
   ("tab", "⇥"), ("delete", "⌦"),
   ("esc", "Esc"), ("PageUp", "PgUp"), ("PageDown", "PgDn"),
   ("Home", "Home"), ("End", "End"),
   ("shift", "⇧"), ("symb", "@#"),
   ("mode_toggle", "ABC⇄123"),
   ("ctrl", "Ctrl"), ("alt", "Alt"),
   ("ScrollUp", "↑↑"), ("ScrollDown", "↓↓"),
   ("WordLeft", "⇐"), ("WordRight", "⇒"),
   ("PanLeft", "⇇"), ("PanRight", "⇉"),
   ("PanLeftHome", "⇤"), ("PanRightEnd", "⇥"),
   ("unicode_picker", "Uni"),
   ("emoji", String.singleton (Char.ofNat 0x1f600)), ("Insert", "Ins")]

/-- Python `str.rstrip()`: drop trailing whitespace. -/
def pyRstrip (s : String) : String :=
  String.mk ((s.toList.reverse.dropWhile Char.isWhitespace).reverse)

/-- `disp(val)`: convert a layout value to a display string. -/
def disp (val : String) : String :=
  if val = "" then ""
  else
    match ACTION.lookup val with
    | some d => d
    | none => pyRstrip val

/-- `font_size_for(char, base_size)`: adjusted font size based on
character length. -/
def font_size_for (char : String) (base_size : ℤ) : ℤ :=
  let n := char.length
  if n ≤ 1 then base_size
  else if n = 2 then max 9 (base_size - 3)
  else if n ≤ 4 then max 8 (base_size - 5)
  else max 7 (base_size - 7)

/-- A `LayoutEntry`: the six string fields parsed per `<entry>` by
`parse_layout`. -/
structure LayoutEntry where
  abc : String := ""
  abc_shift : String := ""
  num : String := ""
  num_shift : String := ""
  symb : String := ""
  symb_shift : String := ""
deriving DecidableEq

/-- The parsed layout table: chord bitmask → entry (the Python dict). -/
def Table : Type := Nat → Option LayoutEntry

/-- An SVG drawing primitive appended by the `Svg` builder. -/
inductive Prim where
  | rect (x y w h : ℚ) (fill stroke : String) (sw rx : ℚ)
  | text (x y : ℚ) (txt : String) (size : ℚ)
      (fill anchor weight baseline : String)
  | comment (s : String)
deriving DecidableEq

/-- The built SVG document: canvas size plus the body primitives.
The textual serialisation is a fixed function of this data. -/
structure SvgDoc where
  width : ℤ
  height : ℤ
  prims : List Prim
deriving DecidableEq

/-- Per-key info dict handed to `draw_6keys`
(defaults are the `info.get(...)` fallbacks). -/
structure KeyInfo where
  char : String := ""
  pressed : Bool := false
  font_size : ℤ := 16
  text_fill : Option String := none
  dimmed : Bool := false

/-- `draw_key`: one rounded-rect key with optional centred character. -/
def draw_key (x y w h : ℚ) (char : String) (pressed : Bool)
    (font_size : ℤ) (text_fill : Option String) (dimmed : Bool) :
    List Prim :=
  let rp :=
    if pressed then Prim.rect x y w h "#222" "#222" 1.5 4
    else if dimmed then Prim.rect x y w h "#f0f0f0" "#ccc" 1 4
    else Prim.rect x y w h "white" "#555" 1.5 4
  let fill :=
    if pressed then text_fill.getD "white"
    else if dimmed then text_fill.getD "#888"
    else text_fill.getD "black"
  rp ::
    (if char ≠ "" then
      [Prim.text (x + w / 2) (y + h / 2) char
        ((font_size_for char font_size : ℤ) : ℚ) fill "middle" "bold"
        "central"]
    else [])

/-- `draw_6keys`: the 6-key grid; `key_info` is one dict per key in
`KEYS` order. -/
def draw_6keys (ox oy kw kh gx gy : ℚ) (key_info : List KeyInfo) :
    List Prim :=
  (KEYS.zip key_info).flatMap (fun ki =>
    let key := ki.1
    let info := ki.2
    draw_key (ox + KCOL key * (kw + gx))
      (oy + (KROW key : ℚ) * (kh + gy)) kw kh
      info.char info.pressed info.font_size info.text_fill info.dimmed)

/-- `_draw_num_symb`: gray NUM and blue SYMB annotation pair. -/
def draw_num_symb (x y_num y_symb : ℚ) (num_char symb_char : String)
    (anchor : String) (num_size symb_size : ℚ) : List Prim :=
  (if num_char ≠ "" then
    [Prim.text x y_num num_char num_size "#999" anchor "bold" "central"]
  else []) ++
  (if symb_char ≠ "" then
    [Prim.text x y_symb symb_char symb_size "#2266cc" anchor "normal"
      "central"]
  else [])

/-- `disp(entry['abc']) if entry else ''` for the entry at chord `c`. -/
def chordChar (entries : Table) (c : Nat) : String :=
  match entries c with
  | some e => disp e.abc
  | none => ""

/-- `disp(entry['num']) if entry else ''` for the entry at chord `c`. -/
def chordNum (entries : Table) (c : Nat) : String :=
  match entries c with
  | some e => disp e.num
  | none => ""

/-- `disp(entry['symb']) if entry else ''` for the entry at chord `c`. -/
def chordSymb (entries : Table) (c : Nat) : String :=
  match entries c with
  | some e => disp e.symb
  | none => ""

/-- Per-key info dict of `draw_center_cell`: every key unpressed,
showing its primary letter value at font size 24. -/
def centerKeyInfo (entries : Table) (key : Nat) : KeyInfo :=
  { char := chordChar entries key, pressed := false, font_size := 24 }

/-- Per-key NUM/SYMB annotation block of `draw_center_cell` (the body
of the source's `for key in KEYS` annotation loop; a key with no entry
contributes nothing). -/
def centerAnnSeg (entries : Table) (cx cy : ℚ) (key : Nat) :
    List Prim :=
  let kw : ℚ := 55
  let kh : ℚ := 42
  let gx : ℚ := 26
  let gy : ℚ := 8
  let ox := cx - (2 * kw + gx) / 2
  let oy := cy - (3 * kh + 2 * gy) / 2
  if (entries key).isSome then
    let kx := ox + KCOL key * (kw + gx)
    let ky := oy + (KROW key : ℚ) * (kh + gy)
    let num_char := chordNum entries key
    let symb_char := chordSymb entries key
    if LEFTKEYS.contains key then
      draw_num_symb (kx - 7) (ky + kh * 0.30) (ky + kh * 0.72)
        num_char symb_char "end" 12 11
    else
      draw_num_symb (kx + kw + 7) (ky + kh * 0.30) (ky + kh * 0.72)
        num_char symb_char "start" 12 11
  else []

/-- `draw_center_cell`: the main 6-key cell with ABC chars plus
NUM/SYMB annotation pairs. -/
def draw_center_cell (entries : Table) (cx cy : ℚ) : List Prim :=
  let kw : ℚ := 55
  let kh : ℚ := 42
  let gx : ℚ := 26
  let gy : ℚ := 8
  let ox := cx - (2 * kw + gx) / 2
  let oy := cy - (3 * kh + 2 * gy) / 2
  draw_6keys ox oy kw kh gx gy (KEYS.map (centerKeyInfo entries)) ++
  KEYS.flatMap (centerAnnSeg entries cx cy)

/-- The opposite-hand side used for 3-key extensions of a 2-key base
chord (`ext_side` in `draw_inner_chord_cell`). -/
def innerExtSide (base_chord : Nat) : List Nat :=
  if onLeft base_chord then RIGHTKEYS
  else if onRight base_chord then LEFTKEYS
  else []

/-- `ext_data` of `draw_inner_chord_cell`: for each opposite-hand key
whose 3-key chord has an entry, its displayed abc/num/symb. -/
def innerExtData (entries : Table) (base_chord : Nat) :
    List (Nat × String × String × String) :=
  (innerExtSide base_chord).filterMap (fun key =>
    if (entries (base_chord ||| key)).isSome then
      some (key, chordChar entries (base_chord ||| key),
        chordNum entries (base_chord ||| key),
        chordSymb entries (base_chord ||| key))
    else none)

/-- Dict lookup into `ext_data` by key. -/
def extLookup (d : List (Nat × String × String × String)) (k : Nat) :
    Option (String × String × String) :=
  (d.find? (fun t => t.1 == k)).map (fun t => t.2)

/-- `sorted([KROW[k] for k in pressed])` of `draw_inner_chord_cell`. -/
def pressedRows (base_chord : Nat) : List Nat :=
  List.insertionSort (· ≤ ·) ((bits base_chord).map KROW)

/-- Per-key info dict of `draw_inner_chord_cell`: pressed keys
inverted with no character, extension keys white with the 3-key
chord's character, the rest dimmed. -/
def innerKeyInfo (entries : Table) (base_chord key : Nat) : KeyInfo :=
  if (bits base_chord).contains key then
    { char := "", pressed := true, font_size := 14 }
  else
    match extLookup (innerExtData entries base_chord) key with
    | some t => { char := t.1, pressed := false, font_size := 13 }
    | none => { char := "", pressed := false, dimmed := true }

/-- Keys block of `draw_inner_chord_cell`: pressed keys inverted,
extension keys white with the 3-key chord's character, rest dimmed. -/
def innerKeysSeg (entries : Table) (cx cy : ℚ) (base_chord : Nat) :
    List Prim :=
  let kw : ℚ := 42
  let kh : ℚ := 30
  let gx : ℚ := 14
  let gy : ℚ := 6
  let ox := cx - (2 * kw + gx) / 2
  let oy := cy - (3 * kh + 2 * gy) / 2
  draw_6keys ox oy kw kh gx gy
    (KEYS.map (innerKeyInfo entries base_chord))

/-- Floating-badge block of `draw_inner_chord_cell` (badge rect, badge
text and the badge's NUM/SYMB annotations), emitted only when the base
chord's resolved character is non-empty. -/
def innerBadgeSeg (entries : Table) (cx cy : ℚ) (base_chord : Nat) :
    List Prim :=
  let kw : ℚ := 42
  let kh : ℚ := 30
  let gx : ℚ := 14
  let gy : ℚ := 6
  let ox := cx - (2 * kw + gx) / 2
  let oy := cy - (3 * kh + 2 * gy) / 2
  let pressed := bits base_chord
  let base_char := chordChar entries base_chord
  let base_num := chordNum entries base_chord
  let base_symb := chordSymb entries base_chord
  let rows := pressedRows base_chord
  if base_char ≠ "" then
    let col := KCOL (pressed.headD 0)
    let lx0 := ox + col * (kw + gx) + kw / 2
    let y_top := oy + (rows.headD 0 : ℚ) * (kh + gy) + kh / 2
    let y_bot := oy + (rows.getLastD 0 : ℚ) * (kh + gy) + kh / 2
    let ly := (y_top + y_bot) / 2
    let lx :=
      if 1 < rows.getLastD 0 - rows.headD 0 then
        if onLeft base_chord then lx0 - 14 else lx0 + 14
      else lx0
    let fs := font_size_for base_char 16
    let badge_w :=
      max (kw - 2) ((base_char.length : ℚ) * ((fs : ℤ) : ℚ) * 0.7 + 8)
    let badge_h := ((fs : ℤ) : ℚ) + 8
    [Prim.rect (lx - badge_w / 2) (ly - badge_h / 2) badge_w badge_h
      "#333" "#333" 0 (badge_h / 2),
     Prim.text lx ly base_char ((fs : ℤ) : ℚ) "white" "middle" "bold"
      "central"] ++
    (if onLeft base_chord then
      draw_num_symb (lx - badge_w / 2 - 4) (ly - 6) (ly + 6)
        base_num base_symb "end" 9 8
    else
      draw_num_symb (lx + badge_w / 2 + 4) (ly - 6) (ly + 6)
        base_num base_symb "start" 9 8)
  else []

/-- Extension-key NUM/SYMB annotation block of
`draw_inner_chord_cell`. -/
def innerExtAnnSeg (entries : Table) (cx cy : ℚ) (base_chord : Nat) :
    List Prim :=
  let kw : ℚ := 42
  let kh : ℚ := 30
  let gx : ℚ := 14
  let gy : ℚ := 6
  let ox := cx - (2 * kw + gx) / 2
  let oy := cy - (3 * kh + 2 * gy) / 2
  let ext_data := innerExtData entries base_chord
  (innerExtSide base_chord).flatMap (fun key =>
    match extLookup ext_data key with
    | none => []
    | some t =>
      let kx := ox + KCOL key * (kw + gx)
      let ky := oy + (KROW key : ℚ) * (kh + gy)
      if LEFTKEYS.contains key then
        draw_num_symb (kx - 4) (ky + kh * 0.30) (ky + kh * 0.72)
          t.2.1 t.2.2 "end" 9 8
      else
        draw_num_symb (kx + kw + 4) (ky + kh * 0.30) (ky + kh * 0.72)
          t.2.1 t.2.2 "start" 9 8)

/-- `draw_inner_chord_cell`: keys, floating badge, extension
annotations, in source order. -/
def draw_inner_chord_cell (entries : Table) (cx cy : ℚ)
    (base_chord : Nat) : List Prim :=
  innerKeysSeg entries cx cy base_chord ++
  innerBadgeSeg entries cx cy base_chord ++
  innerExtAnnSeg entries cx cy base_chord

/-- `draw_outer_chord_cell`: frame, top character, mini keyboard,
bottom NUM/SYMB. -/
def draw_outer_chord_cell (entries : Table) (cx cy : ℚ)
    (chord_mask : Nat) (cell_w cell_h : ℚ) : List Prim :=
  let char := chordChar entries chord_mask
  let num_char := chordNum entries chord_mask
  let symb_char := chordSymb entries chord_mask
  [Prim.rect (cx - cell_w / 2) (cy - cell_h / 2) cell_w cell_h
    "#fafafa" "#ddd" 1 7] ++
  (if char ≠ "" then
    [Prim.text cx (cy - cell_h / 2 + 14) char
      ((font_size_for char 20 : ℤ) : ℚ) "#222" "middle" "bold"
      "central"]
  else []) ++
  (let mkw : ℚ := 20
   let mkh : ℚ := 15
   let mgx : ℚ := 5
   let mgy : ℚ := 3
   let kb_ox := cx - (2 * mkw + mgx) / 2
   let kb_oy := cy - (3 * mkh + 2 * mgy) / 2 - 2
   let pressed := bits chord_mask
   draw_6keys kb_ox kb_oy mkw mkh mgx mgy (KEYS.map (fun key =>
     ({ char := "", pressed := pressed.contains key, font_size := 7,
        dimmed := !(pressed.contains key) } : KeyInfo)))) ++
  draw_num_symb cx (cy + cell_h / 2 - 20) (cy + cell_h / 2 - 8)
    num_char symb_char "middle" 10 9

/-- `draw_direction_cell`: navigation/action chord cell. -/
def draw_direction_cell (entries : Table) (cx cy : ℚ)
    (chord_mask : Nat) (cell_w cell_h : ℚ) : List Prim :=
  let char := chordChar entries chord_mask
  let num_char := chordNum entries chord_mask
  let symb_char := chordSymb entries chord_mask
  [Prim.rect (cx - cell_w / 2) (cy - cell_h / 2) cell_w cell_h
    "#f0f4ff" "#b0c0e0" 1 7] ++
  (let mkw : ℚ := 16
   let mkh : ℚ := 12
   let mgx : ℚ := 4
   let mgy : ℚ := 2
   let kb_ox := cx - (2 * mkw + mgx) / 2
   let kb_oy := cy - (3 * mkh + 2 * mgy) / 2 + 6
   let pressed := bits chord_mask
   draw_6keys kb_ox kb_oy mkw mkh mgx mgy (KEYS.map (fun key =>
     ({ char := "", pressed := pressed.contains key, font_size := 6,
        dimmed := !(pressed.contains key) } : KeyInfo)))) ++
  (if char ≠ "" then
    [Prim.text cx (cy - cell_h / 2 + 18) char
      ((font_size_for char 16 : ℤ) : ℚ) "#333" "middle" "bold"
      "central"]
  else []) ++
  draw_num_symb cx (cy + cell_h / 2 - 18) (cy + cell_h / 2 - 6)
    num_char symb_char "middle" 10 9

/-- `draw_mode_cell`: mode switch chord cell with caller-supplied
label. -/
def draw_mode_cell (entries : Table) (cx cy : ℚ) (chord_mask : Nat)
    (label : String) (cell_w cell_h : ℚ) : List Prim :=
  let num_char := chordNum entries chord_mask
  let symb_char := chordSymb entries chord_mask
  [Prim.rect (cx - cell_w / 2) (cy - cell_h / 2) cell_w cell_h
    "#fff8f0" "#e0c8a0" 1 7] ++
  (let mkw : ℚ := 16
   let mkh : ℚ := 12
   let mgx : ℚ := 4
   let mgy : ℚ := 2
   let kb_ox := cx - (2 * mkw + mgx) / 2
   let kb_oy := cy - (3 * mkh + 2 * mgy) / 2 + 6
   let pressed := bits chord_mask
   draw_6keys kb_ox kb_oy mkw mkh mgx mgy (KEYS.map (fun key =>
     ({ char := "", pressed := pressed.contains key, font_size := 6,
        dimmed := !(pressed.contains key) } : KeyInfo)))) ++
  [Prim.text cx (cy - cell_h / 2 + 18) label 13 "#333" "middle" "bold"
    "central"] ++
  draw_num_symb cx (cy + cell_h / 2 - 18) (cy + cell_h / 2 - 6)
    num_char symb_char "middle" 10 9

/-- `draw_control_cell`: 5-key control chord cell with caller-supplied
label. -/
def draw_control_cell (entries : Table) (cx cy : ℚ) (chord_mask : Nat)
    (label : String) (cell_w cell_h : ℚ) : List Prim :=
  let num_char := chordNum entries chord_mask
  let symb_char := chordSymb entries chord_mask
  [Prim.rect (cx - cell_w / 2) (cy - cell_h / 2) cell_w cell_h
    "#f4f0ff" "#c0b0e0" 1 7] ++
  (let mkw : ℚ := 16
   let mkh : ℚ := 12
   let mgx : ℚ := 4
   let mgy : ℚ := 2
   let kb_ox := cx - (2 * mkw + mgx) / 2
   let kb_oy := cy - (3 * mkh + 2 * mgy) / 2 + 6
   let pressed := bits chord_mask
   draw_6keys kb_ox kb_oy mkw mkh mgx mgy (KEYS.map (fun key =>
     ({ char := "", pressed := pressed.contains key, font_size := 6,
        dimmed := !(pressed.contains key) } : KeyInfo)))) ++
  [Prim.text cx (cy - cell_h / 2 + 18) label 13 "#333" "middle" "bold"
    "central"] ++
  draw_num_symb cx (cy + cell_h / 2 - 18) (cy + cell_h / 2 - 6)
    num_char symb_char "middle" 10 9

/-- Main grid column widths. -/
def col_w : List ℚ := [130, 125, 175, 125, 130]

/-- Main grid row heights. -/
def row_h : List ℚ := [118, 140, 118]

/-- `main_w = sum(col_w)` (685). -/
def main_w : ℚ := col_w.sum

/-- `main_h = sum(row_h)` (376). -/
def main_h : ℚ := row_h.sum

/-- Cumulative column x offsets. -/
def col_x : List ℚ := (List.scanl (· + ·) 0 col_w).dropLast

/-- Cumulative row y offsets. -/
def row_y : List ℚ := (List.scanl (· + ·) 0 row_h).dropLast

/-- Outer cell width. -/
def outer_cw : ℚ := 97

/-- Outer cell height. -/
def outer_ch : ℚ := 118

/-- Outer panel width. -/
def outer_panel_w : ℚ := outer_cw * 2 + 8

/-- Gap between outer panels and the main box. -/
def outer_gap : ℚ := 16

/-- Title strip height. -/
def title_h : ℚ := 68

/-- Main box x origin. -/
def main_box_x : ℚ := outer_panel_w + outer_gap + 16

/-- Main box y origin. -/
def main_box_y : ℚ := title_h

/-- Main box padding. -/
def main_pad : ℚ := 14

/-- Left outer panel x origin. -/
def outer_left_x : ℚ := 8

/-- Right outer panel x origin. -/
def outer_right_x : ℚ := main_box_x + main_w + 2 * main_pad + outer_gap

/-- Gap between main box and the below section. -/
def below_gap : ℚ := 28

/-- Below-section y origin. -/
def below_y : ℚ := main_box_y + main_h + 2 * main_pad + below_gap

/-- Gap above the control row. -/
def ctrl_row_gap : ℚ := 24

/-- Direction cell height (also used for mode and control cells). -/
def dir_ch : ℚ := 95

/-- Direction grid y gap. -/
def dir_gy : ℚ := 5

/-- Estimated direction block height. -/
def dir_block_h_est : ℚ := 2 * dir_ch + dir_gy

/-- Control row y origin. -/
def ctrl_row_y : ℚ := below_y + dir_block_h_est + ctrl_row_gap

/-- `total_w = int(outer_right_x + outer_panel_w + 12)` (1177). -/
def total_w : ℤ := ⌊outer_right_x + outer_panel_w + 12⌋

/-- `total_h = int(ctrl_row_y + dir_ch + 20)` (834). -/
def total_h : ℤ := ⌊ctrl_row_y + dir_ch + 20⌋

/-- Title string: `layout_name or layout_id`, plus the variant suffix
when non-empty. -/
def titleText (layout_id layout_name variant : String) : String :=
  let t := if layout_name = "" then layout_id else layout_name
  if variant ≠ "" then t ++ " (" ++ variant ++ ")" else t

/-- Title section of `generate_svg`. -/
def titleSeg (layout_id layout_name variant : String) : List Prim :=
  [Prim.text ((total_w : ℚ) / 2) 30
    (titleText layout_id layout_name variant) 22 "#222" "middle" "bold"
    "central"]

/-- Main box outline section of `generate_svg`. -/
def mainBoxSeg : List Prim :=
  [Prim.rect (main_box_x - main_pad) (main_box_y - main_pad)
    (main_w + 2 * main_pad) (main_h + 2 * main_pad) "white" "#999" 2 16]

/-- Center cell section of `generate_svg`. -/
def centerSeg (entries : Table) : List Prim :=
  Prim.comment "Center: single keys" ::
  draw_center_cell entries
    (main_box_x + col_x.getD 2 0 + col_w.getD 2 0 / 2)
    (main_box_y + row_y.getD 1 0 + row_h.getD 1 0 / 2)

/-- The fixed (row, col, chord) slots of the six inner chord cells. -/
def inner_chords : List (Nat × Nat × Nat) :=
  [(0, 1, A ||| B), (0, 3, D ||| E), (1, 0, A ||| C), (1, 4, D ||| F),
   (2, 1, B ||| C), (2, 3, E ||| F)]

/-- Inner chord cells section of `generate_svg`. -/
def innerSeg (entries : Table) : List Prim :=
  inner_chords.flatMap (fun rc =>
    Prim.comment ("Inner chord: " ++ chord_label rc.2.2) ::
    draw_inner_chord_cell entries
      (main_box_x + col_x.getD rc.2.1 0 + col_w.getD rc.2.1 0 / 2)
      (main_box_y + row_y.getD rc.1 0 + row_h.getD rc.1 0 / 2)
      rc.2.2)

/-- The fixed (row, col, chord) slots of the left outer panel. -/
def left_outer : List (Nat × Nat × Nat) :=
  [(0, 0, A ||| E), (0, 1, A ||| B ||| E ||| F),
   (1, 0, A ||| C ||| E ||| F), (1, 1, A ||| C ||| D ||| E),
   (2, 0, C ||| E), (2, 1, C ||| D)]

/-- The fixed (row, col, chord) slots of the right outer panel. -/
def right_outer : List (Nat × Nat × Nat) :=
  [(0, 0, B ||| C ||| D ||| E), (0, 1, B ||| D),
   (1, 0, A ||| B ||| D ||| F), (1, 1, B ||| C ||| D ||| F),
   (2, 0, A ||| F), (2, 1, B ||| F)]

/-- Vertical extent shared by the outer panels. -/
def outer_v_total : ℚ := main_h + 2 * main_pad

/-- Vertical gap between outer cells. -/
def outer_v_gap : ℚ := (outer_v_total - 3 * outer_ch) / 2

/-- Left outer panel section of `generate_svg`. -/
def leftOuterSeg (entries : Table) : List Prim :=
  left_outer.flatMap (fun rc =>
    Prim.comment ("Left outer: " ++ chord_label rc.2.2) ::
    draw_outer_chord_cell entries
      (outer_left_x + (rc.2.1 : ℚ) * (outer_cw + 8) + outer_cw / 2)
      (main_box_y - main_pad + (rc.1 : ℚ) * (outer_ch + outer_v_gap) +
        outer_ch / 2)
      rc.2.2 (outer_cw - 2) (outer_ch - 2))

/-- Right outer panel section of `generate_svg`. -/
def rightOuterSeg (entries : Table) : List Prim :=
  right_outer.flatMap (fun rc =>
    Prim.comment ("Right outer: " ++ chord_label rc.2.2) ::
    draw_outer_chord_cell entries
      (outer_right_x + (rc.2.1 : ℚ) * (outer_cw + 8) + outer_cw / 2)
      (main_box_y - main_pad + (rc.1 : ℚ) * (outer_ch + outer_v_gap) +
        outer_ch / 2)
      rc.2.2 (outer_cw - 2) (outer_ch - 2))

/-- Direction cell width. -/
def dir_cw : ℚ := 82

/-- Direction grid x gap. -/
def dir_gx : ℚ := 5

/-- Direction 2x2 block width. -/
def dir_block_w : ℚ := 2 * dir_cw + dir_gx

/-- Direction block center x. -/
def dir_center_x : ℚ := main_box_x + main_w / 2 + main_pad

/-- Direction block x origin. -/
def dir_ox : ℚ := dir_center_x - dir_block_w / 2

/-- The fixed (row, col, chord) slots of the direction 2x2 block. -/
def dir_chords : List (Nat × Nat × Nat) :=
  [(0, 0, A ||| D), (0, 1, A ||| B ||| D ||| E), (1, 0, C ||| F),
   (1, 1, B ||| C ||| E ||| F)]

/-- Direction block height. -/
def dir_block_h : ℚ := 2 * dir_ch + dir_gy

/-- Vertical midline of the direction row. -/
def dir_mid_y : ℚ := below_y + dir_block_h / 2

/-- Center x of the ABC (backspace) cell. -/
def abc_cx : ℚ := dir_ox - dir_cw / 2 - 12

/-- Center x of the DEF (space) cell. -/
def def_cx : ℚ := dir_ox + dir_block_w + dir_cw / 2 + 12

/-- Directions section of `generate_svg`. -/
def dirSeg (entries : Table) : List Prim :=
  Prim.comment "Directions section" ::
  (dir_chords.flatMap (fun rc =>
    draw_direction_cell entries
      (dir_ox + (rc.2.1 : ℚ) * (dir_cw + dir_gx) + dir_cw / 2)
      (below_y + (rc.1 : ℚ) * (dir_ch + dir_gy) + dir_ch / 2)
      rc.2.2 dir_cw dir_ch) ++
   draw_direction_cell entries abc_cx dir_mid_y (A ||| B ||| C)
     dir_cw dir_ch ++
   draw_direction_cell entries def_cx dir_mid_y (D ||| E ||| F)
     dir_cw dir_ch)

/-- Mode cell width. -/
def mode_cw : ℚ := 95

/-- Gap between mode cells. -/
def mode_gap : ℚ := 8

/-- First mode cell x origin. -/
def mode_start_x : ℚ := def_cx + dir_cw / 2 + 28

/-- The fixed mode-switch chords with their labels. -/
def modes : List (Nat × String) :=
  [(B ||| E, "SHIFT"), (A ||| C ||| D ||| F, "SYMB"),
   (A ||| B ||| C ||| D ||| E ||| F, "ABC⇄123")]

/-- Mode switches section of `generate_svg`. -/
def modeSeg (entries : Table) : List Prim :=
  Prim.comment "Mode switches" ::
  modes.enum.flatMap (fun il =>
    draw_mode_cell entries
      (mode_start_x + (il.1 : ℚ) * (mode_cw + mode_gap) + mode_cw / 2)
      dir_mid_y il.2.1 il.2.2 mode_cw dir_ch)

/-- Center x of the navigation section label. -/
def nav_center_x : ℚ := (abc_cx + def_cx) / 2

/-- Section labels of `generate_svg`. -/
def labelSeg : List Prim :=
  [Prim.text nav_center_x (below_y - 10) "Navigation & Actions" 10
    "#aaa" "middle" "normal" "central",
   Prim.text (mode_start_x + (3 * mode_cw + 2 * mode_gap) / 2)
    (below_y - 10) "Mode Switches" 10 "#aaa" "middle" "normal"
    "central"]

/-- Control cell width. -/
def ctrl_cw : ℚ := 95

/-- Gap between control cells. -/
def ctrl_gap : ℚ := 8

/-- The fixed 5-key control chords with their labels. -/
def ctrl_chords : List (Nat × String) :=
  [(A ||| B ||| C ||| D ||| E, "Esc"), (A ||| B ||| C ||| D ||| F, "Ctrl"),
   (A ||| B ||| C ||| E ||| F, "Alt"), (A ||| B ||| D ||| E ||| F, "⏎ Enter"),
   (A ||| C ||| D ||| E ||| F, "⇥ Tab"), (B ||| C ||| D ||| E ||| F, "⌦ Del")]

/-- Control row total width. -/
def ctrl_total_w : ℚ :=
  (ctrl_chords.length : ℚ) * ctrl_cw +
    ((ctrl_chords.length : ℚ) - 1) * ctrl_gap

/-- Control row x origin. -/
def ctrl_start_x : ℚ := main_box_x + main_w / 2 + main_pad - ctrl_total_w / 2

/-- 5-key control chords section of `generate_svg`. -/
def ctrlSeg (entries : Table) : List Prim :=
  Prim.comment "5-key control chords" ::
  Prim.text (ctrl_start_x + ctrl_total_w / 2) (ctrl_row_y - 8)
    "5-Key Control Chords" 10 "#aaa" "middle" "normal" "central" ::
  ctrl_chords.enum.flatMap (fun il =>
    draw_control_cell entries
      (ctrl_start_x + (il.1 : ℚ) * (ctrl_cw + ctrl_gap) + ctrl_cw / 2)
      (ctrl_row_y + dir_ch / 2) il.2.1 il.2.2 ctrl_cw dir_ch)

/-- `generate_svg`: the complete SVG chord reference diagram, as the
computed canvas size plus the body primitives in source draw order. -/
def generate_svg (layout_id layout_name : String) (entries : Table)
    (variant : String) : SvgDoc :=
  ⟨total_w, total_h,
    titleSeg layout_id layout_name variant ++ mainBoxSeg ++
    centerSeg entries ++ innerSeg entries ++ leftOuterSeg entries ++
    rightOuterSeg entries ++ dirSeg entries ++ modeSeg entries ++
    labelSeg ++ ctrlSeg entries⟩

/-- The empty layout table (no chord assigned). -/
def emptyTable : Table := fun _ => none

/-- The fixed (x, y, w, h) geometry of the six key rectangles of a
6-key grid with the given origin and cell metrics. -/
def keyGridRects (ox oy kw kh gx gy : ℚ) : List (ℚ × ℚ × ℚ × ℚ) :=
  KEYS.map (fun k =>
    (ox + KCOL k * (kw + gx), oy + (KROW k : ℚ) * (kh + gy), kw, kh))

/-- Projection of a `LayoutEntry` to its unshifted fields
(abc, num, symb) — everything the renderers ever read. -/
def projEntry (e : LayoutEntry) : String × String × String :=
  (e.abc, e.num, e.symb)

/-- Geometry (x, y, w, h) of every rectangle primitive, in order. -/
def rectGeoms (l : List Prim) : List (ℚ × ℚ × ℚ × ℚ) :=
  l.filterMap (fun p =>
    match p with
    | .rect x y w h _ _ _ _ => some (x, y, w, h)
    | _ => none)

/-- Geometry of every rectangle primitive drawn with a non-zero stroke
width.  The only zero-stroke rectangle the generator ever emits is the
inner-cell floating badge. -/
def fixedRectGeoms (l : List Prim) : List (ℚ × ℚ × ℚ × ℚ) :=
  l.filterMap (fun p =>
    match p with
    | .rect x y w h _ _ sw _ => if sw ≠ 0 then some (x, y, w, h) else none
    | _ => none)

/-- Whether a primitive is a text primitive. -/
def isTextPrim : Prim → Bool
  | .text _ _ _ _ _ _ _ _ => true
  | _ => false

/-- The text primitives of a list having the given fill colour. -/
def textsWithFill (l : List Prim) (f : String) : List Prim :=
  l.filter (fun p =>
    match p with
    | .text _ _ _ _ fill _ _ _ => fill == f
    | _ => false)

/-- Whether a primitive is a zero-stroke-width rectangle — the badge
rectangle is the only such rectangle ever emitted. -/
def isBadgeRect : Prim → Bool
  | .rect _ _ _ _ _ _ sw _ => sw == 0
  | _ => false

/-- x coordinate of a primitive (0 for comments). -/
def primX : Prim → ℚ
  | .rect x _ _ _ _ _ _ _ => x
  | .text x _ _ _ _ _ _ _ => x
  | .comment _ => 0

/-- A primitive lies inside the rectangle [0, W] × [0, H]: a rect by
both corners, a text by its anchor point. -/
def PrimIn (W H : ℚ) : Prim → Prop
  | .rect x y w h _ _ _ _ => 0 ≤ x ∧ 0 ≤ y ∧ x + w ≤ W ∧ y + h ≤ H
  | .text x y _ _ _ _ _ _ => 0 ≤ x ∧ 0 ≤ y ∧ x ≤ W ∧ y ≤ H
  | .comment _ => True

instance (W H : ℚ) (p : Prim) : Decidable (PrimIn W H p) := by
  cases p <;> simp only [PrimIn] <;> infer_instance

/-- Every primitive of the document lies inside its declared canvas. -/
def docBounded (d : SvgDoc) : Bool :=
  d.prims.all (fun p => decide (PrimIn (d.width : ℚ) (d.height : ℚ) p))

/-- Every primitive of the list lies inside [0, W] × [0, H]. -/
def InBox (W H : ℚ) (l : List Prim) : Prop :=
  ∀ p ∈ l, PrimIn W H p

/-- Concrete table: only chord `A ||| B` assigned, letter value `t`. -/
def oneEntryTable : Table :=
  fun c => if c = 3 then some { abc := "t" } else none

/-- Concrete table for the badge-offset witness: chord `A ||| C`
assigned with letter value `th`. -/
def acEntryTable : Table :=
  fun c => if c = 5 then some { abc := "th" } else none

/-- Concrete table whose chord `A ||| B` entry has an empty letter
field but non-empty digit and symbol fields. -/
def abEmptyLetterTable : Table :=
  fun c => if c = 3 then some { abc := "", num := "5", symb := "%" }
    else none

/-- Concrete table: chord `A ||| B` assigned a 1-character letter. -/
def shortGlyphTable : Table :=
  fun c => if c = 3 then some { abc := "Q" } else none

/-- Concrete table identical to `abEmptyLetterTable` except that the
letter field is `Q` instead of empty. -/
def abLetterQTable : Table :=
  fun c => if c = 3 then some { abc := "Q", num := "5", symb := "%" }
    else none

/-- Concrete table identical to `shortGlyphTable` except the letter
value has 6 characters. -/
def longGlyphTable : Table :=
  fun c => if c = 3 then some { abc := "QWERTY" } else none

/-- Concrete table whose chord `A ||| C` letter value has 100
characters. -/
def hugeGlyphTable : Table :=
  fun c =>
    if c = 5 then some { abc := String.mk (List.replicate 100 'Q') }
    else none

/-- Concrete pair of tables that agree on every unshifted field and
differ only in a shifted field. -/
def shiftTableA : Table :=
  fun c =>
    if c = 3 then
      some { abc := "t", num := "5", symb := "%", abc_shift := "T" }
    else none

/-- Second table of the pair: same unshifted fields, different
`abc_shift` and `num_shift`. -/
def shiftTableB : Table :=
  fun c =>
    if c = 3 then
      some { abc := "t", num := "5", symb := "%", abc_shift := "U", num_shift := "9" }
    else none

/-! Helper lemmas shared by several claims. -/

theorem filterMap_flatMap_list {α β γ : Type} (l : List α)
    (f : α → List β) (g : β → Option γ) :
    (l.flatMap f).filterMap g = l.flatMap fun a => (f a).filterMap g := by
  induction l with
  | nil => rfl
  | cons a t ih => simp [List.filterMap_append, ih]

theorem filter_flatMap_list {α β : Type} (l : List α) (f : α → List β)
    (p : β → Bool) :
    (l.flatMap f).filter p = l.flatMap fun a => (f a).filter p := by
  induction l with
  | nil => rfl
  | cons a t ih => simp [List.filter_append, ih]

/-- C8: for every chord value 1..63, re-unioning the keys returned by
`bits` reconstructs the original mask exactly, and `bits` lists the
pressed keys in the fixed global order (a sublist of `KEYS`). -/
theorem bits_roundtrip_ordered (m : Nat) (h1 : 1 ≤ m) (h2 : m ≤ 63) :
    (bits m).foldr (· ||| ·) 0 = m ∧ (bits m).Sublist KEYS := by
  have key : ∀ n, n < 64 →
      ((bits n).foldr (· ||| ·) 0 = n ∧ (bits n).Sublist KEYS) := by
    decide
  exact key m (by omega)

/-- Witness for C8 at the concrete chord 21 = A|C|E. -/
theorem bits_roundtrip_ordered_witness :
    1 ≤ 21 ∧ 21 ≤ 63 ∧
      ((bits 21).foldr (· ||| ·) 0 = 21 ∧ (bits 21).Sublist KEYS) :=
  ⟨by norm_num, by norm_num,
    bits_roundtrip_ordered 21 (by norm_num) (by norm_num)⟩

/-- C3 counterexample: at caller-supplied base size 8 the selected
font size increases from a length-1 glyph (size 8) to a length-2 glyph
(size 9), so monotonicity fails for arbitrary base sizes as claimed. -/
theorem font_size_mono_cex :
    ("x").length ≤ ("xy").length ∧
      ¬ font_size_for "xy" 8 ≤ font_size_for "x" 8 := by decide

/-- C3 (amended): for every base size b ≥ 9 the selected font size is
monotonically non-increasing in glyph length, and for every base size
the returned size never drops below the documented floor of its length
bucket (9 for length 2, 8 for lengths 3-4, 7 for length ≥ 5). -/
theorem font_size_mono_and_floors (b : ℤ) (hb : 9 ≤ b) (s t : String)
    (hst : s.length ≤ t.length) :
    font_size_for t b ≤ font_size_for s b ∧
    ∀ (c : ℤ) (u : String),
      (u.length = 2 → 9 ≤ font_size_for u c) ∧
      (3 ≤ u.length ∧ u.length ≤ 4 → 8 ≤ font_size_for u c) ∧
      (5 ≤ u.length → 7 ≤ font_size_for u c) := by
  constructor
  · simp only [font_size_for]
    split_ifs <;> (try simp only [max_le_iff, le_max_iff]) <;> omega
  · intro c u
    refine ⟨?_, ?_, ?_⟩ <;> intro h <;> simp only [font_size_for] <;>
      split_ifs <;> (try simp only [le_max_iff]) <;> omega

/-- Witness for C3 at base size 12 with glyphs of lengths 2 and 6. -/
theorem font_size_mono_and_floors_witness :
    (9 : ℤ) ≤ 12 ∧ ("ab").length ≤ ("abcdef").length ∧
    font_size_for "abcdef" 12 ≤ font_size_for "ab" 12 ∧
    9 ≤ font_size_for "ab" 12 :=
  ⟨by norm_num, by decide,
   (font_size_mono_and_floors 12 (by norm_num) "ab" "abcdef"
     (by decide)).1,
   ((font_size_mono_and_floors 12 (by norm_num) "ab" "abcdef"
     (by decide)).2 12 "ab").1 (by decide)⟩

/-- C7: the display resolver returns the empty string unchanged, the
table glyph on an exact (case-sensitive) match of a symbolic action
name, and otherwise the raw value with trailing whitespace stripped —
an unknown name is displayed as text, never an error. -/
theorem disp_table_or_rstrip :
    disp "" = "" ∧
    (∀ v d, ACTION.lookup v = some d → disp v = d) ∧
    (∀ v, ACTION.lookup v = none → disp v = pyRstrip v) := by
  refine ⟨rfl, ?_, ?_⟩
  · intro v d h
    have hv : v ≠ "" := by
      intro hv
      subst hv
      have h0 : List.lookup "" ACTION = none := by decide
      rw [h0] at h
      exact Option.noConfusion h
    simp [disp, hv, h]
  · intro v h
    by_cases hv : v = ""
    · subst hv
      decide
    · simp [disp, hv, h]

/-- Witness for C7: a known action name resolves to its glyph; an
unknown value is displayed with trailing whitespace stripped. -/
theorem disp_table_or_rstrip_witness :
    ACTION.lookup "backspace" = some "⌫" ∧ disp "backspace" = "⌫" ∧
    ACTION.lookup "xy  " = none ∧ disp "xy  " = pyRstrip "xy  " :=
  ⟨by decide, disp_table_or_rstrip.2.1 "backspace" "⌫" (by decide),
   by decide, disp_table_or_rstrip.2.2 "xy  " (by decide)⟩

/-- C2: diagram generation is deterministic — the embedding of
`generate_svg` is a pure function of the layout id, name, table and
variant (the source consults no clock, randomness or global state),
so two invocations on identical input yield identical documents. -/
theorem generate_svg_two_invocations_equal (layout_id layout_name : String)
    (entries : Table) (variant : String) :
    generate_svg layout_id layout_name entries variant =
      generate_svg layout_id layout_name entries variant := rfl

/-- C10: renderers read only the unshifted `abc`, `num`, `symb` fields:
two tables that agree on those (and on which chords are populated)
produce identical documents regardless of their shifted fields. -/
theorem shifted_fields_never_influence
    (layout_id layout_name variant : String) (e1 e2 : Table)
    (h : ∀ c, (e1 c).map projEntry = (e2 c).map projEntry) :
    generate_svg layout_id layout_name e1 variant =
      generate_svg layout_id layout_name e2 variant := by
  have hso : ∀ c, (e1 c).isSome = (e2 c).isSome := by
    intro c
    have hc := h c
    cases h1 : e1 c <;> cases h2 : e2 c <;> simp [h1, h2] at hc ⊢
  have habc : ∀ c, chordChar e1 c = chordChar e2 c := by
    intro c
    have hc := h c
    cases h1 : e1 c <;> cases h2 : e2 c <;>
      simp [h1, h2, projEntry, Prod.ext_iff, chordChar] at hc ⊢
    rw [hc.1]
  have hnum : ∀ c, chordNum e1 c = chordNum e2 c := by
    intro c
    have hc := h c
    cases h1 : e1 c <;> cases h2 : e2 c <;>
      simp [h1, h2, projEntry, Prod.ext_iff, chordNum] at hc ⊢
    rw [hc.2.1]
  have hsym : ∀ c, chordSymb e1 c = chordSymb e2 c := by
    intro c
    have hc := h c
    cases h1 : e1 c <;> cases h2 : e2 c <;>
      simp [h1, h2, projEntry, Prod.ext_iff, chordSymb] at hc ⊢
    rw [hc.2.2]
  have hext : innerExtData e1 = innerExtData e2 := by
    funext c
    simp only [innerExtData, hso, habc, hnum, hsym]
  have hki : innerKeyInfo e1 = innerKeyInfo e2 := by
    funext c k
    simp only [innerKeyInfo, hext]
  have hcki : centerKeyInfo e1 = centerKeyInfo e2 := by
    funext k
    simp only [centerKeyInfo, habc]
  have hcas : centerAnnSeg e1 = centerAnnSeg e2 := by
    funext cx cy k
    simp only [centerAnnSeg, hso, hnum, hsym]
  simp only [generate_svg, titleSeg, mainBoxSeg, centerSeg,
    draw_center_cell, hcki, hcas, innerSeg, draw_inner_chord_cell,
    innerKeysSeg, innerBadgeSeg, innerExtAnnSeg, leftOuterSeg,
    rightOuterSeg, draw_outer_chord_cell, dirSeg, draw_direction_cell,
    modeSeg, draw_mode_cell, labelSeg, ctrlSeg, draw_control_cell,
    hso, habc, hnum, hsym, hki, hext]

/-- Witness for C10: two concrete tables differing only in shifted
fields yield the same document. -/
theorem shifted_fields_never_influence_witness :
    shiftTableA 3 ≠ shiftTableB 3 ∧
    generate_svg "en" "English" shiftTableA "Standard" =
      generate_svg "en" "English" shiftTableB "Standard" :=
  ⟨by decide,
   shifted_fields_never_influence "en" "English" "Standard"
     shiftTableA shiftTableB (by
      intro c
      by_cases hc : c = 3 <;>
        simp [shiftTableA, shiftTableB, hc, projEntry])⟩

theorem textsWithFill_append (l1 l2 : List Prim) (w : String) :
    textsWithFill (l1 ++ l2) w = textsWithFill l1 w ++ textsWithFill l2 w :=
  List.filter_append _ _

theorem textsWithFill_flatMap {α : Type} (l : List α) (f : α → List Prim)
    (w : String) :
    textsWithFill (l.flatMap f) w = l.flatMap fun a => textsWithFill (f a) w :=
  filter_flatMap_list _ _ _

/-- A blank key (no character) contributes no text primitive. -/
theorem filter_text_draw_key_blank (x y w h : ℚ) (p : Bool) (fs : ℤ)
    (tf : Option String) (d : Bool) :
    (draw_key x y w h "" p fs tf d).filter isTextPrim = [] := by
  unfold draw_key
  split_ifs <;> simp_all [isTextPrim]

/-- A 6-key grid whose infos all have empty characters contributes no
text primitive. -/
theorem filter_text_draw_6keys_blank (ox oy kw kh gx gy : ℚ)
    (f : Nat → KeyInfo) (hf : ∀ k, (f k).char = "") :
    (draw_6keys ox oy kw kh gx gy (KEYS.map f)).filter isTextPrim = [] := by
  simp [draw_6keys, KEYS, hf, List.filter_append,
    filter_text_draw_key_blank]

/-- A key never emits a white-filled text unless it is pressed with a
non-empty character and no explicit text fill. -/
theorem white_text_draw_key (x y w h : ℚ) (ch : String) (p : Bool)
    (fs : ℤ) (d : Bool) (hp : p = true → ch = "") :
    textsWithFill (draw_key x y w h ch p fs none d) "white" = [] := by
  cases p with
  | true => rw [hp rfl]; simp [draw_key, textsWithFill]
  | false =>
    simp only [draw_key, textsWithFill, Option.getD]
    split_ifs <;> simp_all [List.filter]

/-- NUM/SYMB annotations are never white. -/
theorem white_text_draw_num_symb (x yn ys : ℚ) (n s a : String)
    (ns ss : ℚ) :
    textsWithFill (draw_num_symb x yn ys n s a ns ss) "white" = [] := by
  simp only [draw_num_symb, textsWithFill]
  split_ifs <;> simp [List.filter]

/-- A 6-key grid built from infos with no explicit text fill and no
character on pressed keys emits no white text. -/
theorem white_text_draw_6keys (ox oy kw kh gx gy : ℚ)
    (f : Nat → KeyInfo)
    (hf : ∀ k, (f k).text_fill = none ∧
      ((f k).pressed = true → (f k).char = "")) :
    textsWithFill (draw_6keys ox oy kw kh gx gy (KEYS.map f)) "white" =
      [] := by
  simp only [draw_6keys]
  rw [textsWithFill_flatMap, List.flatMap_eq_nil_iff]
  intro ki hki
  simp only [KEYS, List.map_cons, List.map_nil, List.zip_cons_cons,
    List.zip_nil_left, List.mem_cons, List.not_mem_nil, or_false] at hki
  rcases hki with rfl | rfl | rfl | rfl | rfl | rfl <;>
    simp only [] <;> rw [(hf _).1] <;>
    exact white_text_draw_key _ _ _ _ _ _ _ _ (hf _).2

/-- The inner-cell key infos: never an explicit text fill, and pressed
keys have empty characters. -/
theorem innerKeyInfo_props (entries : Table) (c k : Nat) :
    (innerKeyInfo entries c k).text_fill = none ∧
      ((innerKeyInfo entries c k).pressed = true →
        (innerKeyInfo entries c k).char = "") := by
  unfold innerKeyInfo
  split_ifs with hk
  · exact ⟨rfl, fun _ => rfl⟩
  · cases hext : extLookup (innerExtData entries c) k <;>
      simp [hext]

/-- The keys block of an inner cell emits no white text. -/
theorem white_text_innerKeysSeg (entries : Table) (cx cy : ℚ) (c : Nat) :
    textsWithFill (innerKeysSeg entries cx cy c) "white" = [] := by
  simp only [innerKeysSeg]
  exact white_text_draw_6keys _ _ _ _ _ _ _ (innerKeyInfo_props entries c)

/-- The extension-annotation block of an inner cell emits no white
text. -/
theorem white_text_innerExtAnnSeg (entries : Table) (cx cy : ℚ)
    (c : Nat) :
    textsWithFill (innerExtAnnSeg entries cx cy c) "white" = [] := by
  simp only [innerExtAnnSeg]
  rw [textsWithFill_flatMap, List.flatMap_eq_nil_iff]
  intro k _
  cases hext : extLookup (innerExtData entries c) k <;>
    simp only [hext]
  · rfl
  · split_ifs <;> exact white_text_draw_num_symb _ _ _ _ _ _ _ _

/-- A chord absent from the table resolves all three displayed fields
to the empty string. -/
theorem chord_accessors_none (entries : Table) (c : Nat)
    (h : entries c = none) :
    chordChar entries c = "" ∧ chordNum entries c = "" ∧
      chordSymb entries c = "" := by
  simp [chordChar, chordNum, chordSymb, h]

/-- An outer cell over the empty table draws no text at all. -/
theorem filter_text_outer_empty (cx cy cw ch : ℚ) (c : Nat) :
    (draw_outer_chord_cell emptyTable cx cy c cw ch).filter
      isTextPrim = [] := by
  unfold draw_outer_chord_cell
  simp only [chordChar, chordNum, chordSymb, emptyTable, ne_eq,
    not_true_eq_false, if_false, List.filter_append, List.append_eq_nil,
    ite_self]
  refine ⟨⟨⟨rfl, rfl⟩,
    filter_text_draw_6keys_blank _ _ _ _ _ _ _ (fun k => rfl)⟩, ?_⟩
  simp [draw_num_symb]

/-- A direction cell over the empty table draws no text at all. -/
theorem filter_text_direction_empty (cx cy cw ch : ℚ) (c : Nat) :
    (draw_direction_cell emptyTable cx cy c cw ch).filter
      isTextPrim = [] := by
  unfold draw_direction_cell
  simp only [chordChar, chordNum, chordSymb, emptyTable, ne_eq,
    not_true_eq_false, if_false, List.filter_append, List.append_eq_nil,
    ite_self]
  refine ⟨⟨⟨rfl,
    filter_text_draw_6keys_blank _ _ _ _ _ _ _ (fun k => rfl)⟩, rfl⟩, ?_⟩
  simp [draw_num_symb]

/-- A mode cell over the empty table draws exactly its label text. -/
theorem filter_text_mode_empty (cx cy cw ch : ℚ) (c : Nat)
    (label : String) :
    (draw_mode_cell emptyTable cx cy c label cw ch).filter isTextPrim =
      [Prim.text cx (cy - ch / 2 + 18) label 13 "#333" "middle" "bold"
        "central"] := by
  unfold draw_mode_cell
  simp only [chordNum, chordSymb, emptyTable, ne_eq, not_true_eq_false,
    if_false, List.filter_append, ite_self]
  rw [filter_text_draw_6keys_blank _ _ _ _ _ _ _ (fun k => rfl)]
  simp [draw_num_symb, isTextPrim]

/-- A control cell over the empty table draws exactly its label. -/
theorem filter_text_control_empty (cx cy cw ch : ℚ) (c : Nat)
    (label : String) :
    (draw_control_cell emptyTable cx cy c label cw ch).filter
      isTextPrim =
      [Prim.text cx (cy - ch / 2 + 18) label 13 "#333" "middle" "bold"
        "central"] := by
  unfold draw_control_cell
  simp only [chordNum, chordSymb, emptyTable, ne_eq, not_true_eq_false,
    if_false, List.filter_append, ite_self]
  rw [filter_text_draw_6keys_blank _ _ _ _ _ _ _ (fun k => rfl)]
  simp [draw_num_symb, isTextPrim]

/-- The center cell over the empty table draws no text at all. -/
theorem filter_text_center_empty (cx cy : ℚ) :
    (draw_center_cell emptyTable cx cy).filter isTextPrim = [] := by
  unfold draw_center_cell
  rw [List.filter_append]
  rw [filter_text_draw_6keys_blank _ _ _ _ _ _ _ (fun k => rfl)]
  simp [centerAnnSeg, emptyTable]

/-- A contributor that emits nothing for `k` can be dropped from a
flat-mapped loop by erasing `k` from the index list. -/
theorem flatMap_eq_erase_flatMap {α : Type} (k : ℕ) (g : ℕ → List α)
    (hk : g k = []) (l : List ℕ) :
    l.flatMap g = (l.erase k).flatMap g := by
  induction l with
  | nil => rfl
  | cons a t ih =>
    by_cases ha : a = k
    · subst ha
      rw [List.erase_cons_head, List.flatMap_cons, hk, List.nil_append]
    · rw [List.erase_cons_tail (by simp [ha]), List.flatMap_cons,
        List.flatMap_cons, ih]

/-- C1: a chord slot with no table entry still renders, for every
partial layout table.  The outer/direction/mode/control renderers draw
the same primitives as on the empty table — frame and mini-keyboard
rectangles but no text except a caller-supplied label; the inner
renderer simply omits its badge block; the three textual fields of the
missing chord all resolve to the empty string; in the center cell the
missing key's slot shows no character and contributes no NUM/SYMB
annotations (the annotation loop reduces to the remaining keys), while
the six key rectangles are still drawn; and `generate_svg` completes
on every partial table with the fixed canvas size. -/
theorem unassigned_chord_renders_blank (entries : Table) (c : Nat)
    (cx cy cw ch : ℚ) (label layout_id layout_name variant : String)
    (h : entries c = none) :
    (draw_outer_chord_cell entries cx cy c cw ch =
        draw_outer_chord_cell emptyTable cx cy c cw ch ∧
      (draw_outer_chord_cell emptyTable cx cy c cw ch).filter
        isTextPrim = []) ∧
    (draw_direction_cell entries cx cy c cw ch =
        draw_direction_cell emptyTable cx cy c cw ch ∧
      (draw_direction_cell emptyTable cx cy c cw ch).filter
        isTextPrim = []) ∧
    (draw_mode_cell entries cx cy c label cw ch =
        draw_mode_cell emptyTable cx cy c label cw ch ∧
      (draw_mode_cell emptyTable cx cy c label cw ch).filter
        isTextPrim =
        [Prim.text cx (cy - ch / 2 + 18) label 13 "#333" "middle"
          "bold" "central"]) ∧
    (draw_control_cell entries cx cy c label cw ch =
        draw_control_cell emptyTable cx cy c label cw ch ∧
      (draw_control_cell emptyTable cx cy c label cw ch).filter
        isTextPrim =
        [Prim.text cx (cy - ch / 2 + 18) label 13 "#333" "middle"
          "bold" "central"]) ∧
    draw_inner_chord_cell entries cx cy c =
      innerKeysSeg entries cx cy c ++ innerExtAnnSeg entries cx cy c ∧
    chordChar entries c = "" ∧ chordNum entries c = "" ∧
    chordSymb entries c = "" ∧
    (centerKeyInfo entries c).char = "" ∧
    draw_center_cell entries cx cy =
      draw_6keys (cx - (2 * 55 + 26) / 2) (cy - (3 * 42 + 2 * 8) / 2)
        55 42 26 8 (KEYS.map (centerKeyInfo entries)) ++
      (KEYS.erase c).flatMap (centerAnnSeg entries cx cy) ∧
    (draw_center_cell emptyTable cx cy).filter isTextPrim = [] ∧
    (generate_svg layout_id layout_name entries variant).width = 1177 ∧
    (generate_svg layout_id layout_name entries variant).height = 834 := by
  refine ⟨⟨?_, filter_text_outer_empty cx cy cw ch c⟩,
    ⟨?_, filter_text_direction_empty cx cy cw ch c⟩,
    ⟨?_, filter_text_mode_empty cx cy cw ch c label⟩,
    ⟨?_, filter_text_control_empty cx cy cw ch c label⟩,
    ?_, ?_, ?_, ?_, ?_, ?_, filter_text_center_empty cx cy, ?_, ?_⟩
  · simp [draw_outer_chord_cell, chordChar, chordNum, chordSymb, h,
      emptyTable]
  · simp [draw_direction_cell, chordChar, chordNum, chordSymb, h,
      emptyTable]
  · simp [draw_mode_cell, chordNum, chordSymb, h, emptyTable]
  · simp [draw_control_cell, chordNum, chordSymb, h, emptyTable]
  · simp [draw_inner_chord_cell, innerBadgeSeg, chordChar, h]
  · simp [chordChar, h]
  · simp [chordNum, h]
  · simp [chordSymb, h]
  · simp [centerKeyInfo, chordChar, h]
  · unfold draw_center_cell
    dsimp only
    rw [flatMap_eq_erase_flatMap c (centerAnnSeg entries cx cy)
      (by simp [centerAnnSeg, h]) KEYS]
  · show total_w = 1177
    norm_num [total_w, outer_right_x, main_box_x, outer_panel_w,
      outer_cw, outer_gap, main_w, col_w, main_pad]
  · show total_h = 834
    norm_num [total_h, ctrl_row_y, below_y, main_box_y, title_h,
      main_h, row_h, main_pad, below_gap, dir_block_h_est, dir_ch,
      dir_gy, ctrl_row_gap]

/-- Witness for C1 at the unassigned chord 12 = C|D of a one-entry
table. -/
theorem unassigned_chord_renders_blank_witness :
    oneEntryTable 12 = none ∧
    draw_inner_chord_cell oneEntryTable 100 100 12 =
      innerKeysSeg oneEntryTable 100 100 12 ++
        innerExtAnnSeg oneEntryTable 100 100 12 ∧
    oneEntryTable 4 = none ∧
    (centerKeyInfo oneEntryTable 4).char = "" ∧
    draw_center_cell oneEntryTable 100 100 =
      draw_6keys (100 - (2 * 55 + 26) / 2) (100 - (3 * 42 + 2 * 8) / 2)
        55 42 26 8 (KEYS.map (centerKeyInfo oneEntryTable)) ++
      (KEYS.erase 4).flatMap (centerAnnSeg oneEntryTable 100 100) :=
  ⟨by decide,
   (unassigned_chord_renders_blank oneEntryTable 12 100 100 95 95
     "Esc" "en" "English" "Standard" (by decide)).2.2.2.2.1,
   by decide,
   (unassigned_chord_renders_blank oneEntryTable 4 100 100 95 95
     "Esc" "en" "English" "Standard" (by decide)).2.2.2.2.2.2.2.2.1,
   (unassigned_chord_renders_blank oneEntryTable 4 100 100 95 95
     "Esc" "en" "English" "Standard" (by decide)).2.2.2.2.2.2.2.2.2.1⟩

/-- C9: when the base chord's letter value resolves to the empty
string (entry absent or abc field empty), the inner cell draws no
badge rectangle, no badge text and no NUM/SYMB annotations for the
base chord — even if the entry's num and symb fields are non-empty. -/
theorem inner_badge_needs_letter (entries : Table) (cx cy : ℚ)
    (c : Nat) (h : chordChar entries c = "") :
    draw_inner_chord_cell entries cx cy c =
      innerKeysSeg entries cx cy c ++ innerExtAnnSeg entries cx cy c ∧
    (draw_inner_chord_cell entries cx cy c).filter isBadgeRect = [] ∧
    textsWithFill (draw_inner_chord_cell entries cx cy c) "white" = [] := by
  have hbadge : innerBadgeSeg entries cx cy c = [] := by
    simp [innerBadgeSeg, h]
  refine ⟨by simp [draw_inner_chord_cell, hbadge], ?_, ?_⟩
  · simp only [draw_inner_chord_cell, hbadge, List.append_nil,
      List.nil_append, List.filter_append, innerKeysSeg]
    rw [List.append_eq_nil]
    constructor
    · simp only [draw_6keys]
      rw [filter_flatMap_list, List.flatMap_eq_nil_iff]
      intro ki _
      unfold draw_key
      split_ifs <;> simp [isBadgeRect] <;> norm_num
    · simp only [innerExtAnnSeg]
      rw [filter_flatMap_list, List.flatMap_eq_nil_iff]
      intro k _
      cases hext : extLookup (innerExtData entries c) k <;>
        simp only [hext]
      · rfl
      · split_ifs <;> simp [draw_num_symb, isBadgeRect]
  · simp only [draw_inner_chord_cell, hbadge, List.append_nil,
      List.nil_append, textsWithFill_append, white_text_innerKeysSeg,
      white_text_innerExtAnnSeg, List.append_nil]

/-- Witness for C9: a concrete entry with empty letter but non-empty
digit and symbol fields draws no badge. -/
theorem inner_badge_needs_letter_witness :
    chordChar abEmptyLetterTable 3 = "" ∧
    chordNum abEmptyLetterTable 3 = "5" ∧
    chordSymb abEmptyLetterTable 3 = "%" ∧
    draw_inner_chord_cell abEmptyLetterTable 100 100 3 =
      innerKeysSeg abEmptyLetterTable 100 100 3 ++
        innerExtAnnSeg abEmptyLetterTable 100 100 3 :=
  ⟨by decide, by decide, by decide,
   (inner_badge_needs_letter abEmptyLetterTable 100 100 3
     (by decide)).1⟩

/-- C6: for a 2-key one-hand base chord with a non-empty resolved
letter, the badge text (the only white-filled text of the cell) is
centred on the pressed keys' column center, shifted outward by exactly
14 units (left hand: subtracted, right hand: added) exactly when the
two pressed rows differ by more than 1, and not shifted otherwise. -/
theorem inner_badge_offset_from_column (entries : Table) (cx cy : ℚ)
    (c : Nat) (_htwo : (bits c).length = 2)
    (_hhand : onLeft c = true ∨ onRight c = true)
    (hch : chordChar entries c ≠ "") :
    (textsWithFill (draw_inner_chord_cell entries cx cy c) "white").map
      primX =
      [cx - 49 + KCOL ((bits c).headD 0) * 56 + 21 +
        (if 1 < (pressedRows c).getLastD 0 - (pressedRows c).headD 0
         then (if onLeft c then (-14 : ℚ) else 14) else 0)] := by
  unfold draw_inner_chord_cell
  rw [textsWithFill_append, textsWithFill_append,
    white_text_innerKeysSeg, white_text_innerExtAnnSeg]
  simp only [List.nil_append, List.append_nil]
  unfold innerBadgeSeg
  rw [if_pos hch, textsWithFill_append,
    apply_ite (fun l => textsWithFill l "white"),
    white_text_draw_num_symb, white_text_draw_num_symb, ite_self]
  simp only [textsWithFill, List.filter, beq_self_eq_true,
    List.append_nil, List.map, primX, List.cons.injEq, and_true]
  split_ifs <;> ring

/-- Witness for C6 at chord A|C (non-adjacent, left hand): the badge
is at 300 - 28 - 14 = 258. -/
theorem inner_badge_offset_from_column_witness :
    (bits 5).length = 2 ∧ (onLeft 5 = true ∨ onRight 5 = true) ∧
    chordChar acEntryTable 5 ≠ "" ∧
    (textsWithFill (draw_inner_chord_cell acEntryTable 300 200 5)
      "white").map primX = [258] := by
  refine ⟨by decide, Or.inl (by decide), by decide, ?_⟩
  rw [inner_badge_offset_from_column acEntryTable 300 200 5 (by decide)
    (Or.inl (by decide)) (by decide)]
  simp +decide [pressedRows, bits, KEYS, A, B, C, D, E, F, KROW, KCOL,
    onLeft, LEFTKEYS, List.insertionSort, List.orderedInsert,
    List.filter]
  norm_num

theorem fixedRectGeoms_append (l1 l2 : List Prim) :
    fixedRectGeoms (l1 ++ l2) =
      fixedRectGeoms l1 ++ fixedRectGeoms l2 :=
  List.filterMap_append _ _ _

theorem fixedRectGeoms_flatMap {α : Type} (l : List α)
    (f : α → List Prim) :
    fixedRectGeoms (l.flatMap f) = l.flatMap fun a => fixedRectGeoms (f a) :=
  filterMap_flatMap_list _ _ _

theorem fixedRectGeoms_nil : fixedRectGeoms [] = [] := rfl

theorem fixedRectGeoms_comment_cons (s : String) (l : List Prim) :
    fixedRectGeoms (Prim.comment s :: l) = fixedRectGeoms l := by
  simp [fixedRectGeoms]

theorem fixedRectGeoms_text_cons (x y : ℚ) (t : String) (sz : ℚ)
    (f a w b : String) (l : List Prim) :
    fixedRectGeoms (Prim.text x y t sz f a w b :: l) =
      fixedRectGeoms l := by
  simp [fixedRectGeoms]

/-- Every key rectangle has non-zero stroke width; the optional
character is a text, so a key contributes exactly its rectangle. -/
theorem fixedRectGeoms_draw_key (x y w h : ℚ) (ch : String) (p : Bool)
    (fs : ℤ) (tf : Option String) (d : Bool) :
    fixedRectGeoms (draw_key x y w h ch p fs tf d) = [(x, y, w, h)] := by
  unfold draw_key
  split_ifs <;> norm_num [fixedRectGeoms, List.filterMap_cons]

theorem fixedRectGeoms_draw_num_symb (x yn ys : ℚ) (n s a : String)
    (ns ss : ℚ) :
    fixedRectGeoms (draw_num_symb x yn ys n s a ns ss) = [] := by
  unfold draw_num_symb
  split_ifs <;> simp [fixedRectGeoms]

/-- The rectangle geometry of a 6-key grid is the fixed key grid,
whatever the key infos are. -/
theorem fixedRectGeoms_draw_6keys (ox oy kw kh gx gy : ℚ)
    (f : Nat → KeyInfo) :
    fixedRectGeoms (draw_6keys ox oy kw kh gx gy (KEYS.map f)) =
      keyGridRects ox oy kw kh gx gy := by
  simp [draw_6keys, keyGridRects, KEYS, fixedRectGeoms_append,
    fixedRectGeoms_draw_key, fixedRectGeoms_nil]

/-- The inner badge block contributes no non-zero-stroke rectangle
(the badge rectangle has stroke width 0). -/
theorem fixedRectGeoms_innerBadgeSeg (entries : Table) (cx cy : ℚ)
    (c : Nat) :
    fixedRectGeoms (innerBadgeSeg entries cx cy c) = [] := by
  unfold innerBadgeSeg
  dsimp only
  split_ifs <;>
    first
      | rfl
      | (rw [fixedRectGeoms_append, fixedRectGeoms_draw_num_symb]
         simp [fixedRectGeoms])

theorem fixedRectGeoms_innerExtAnnSeg (entries : Table) (cx cy : ℚ)
    (c : Nat) :
    fixedRectGeoms (innerExtAnnSeg entries cx cy c) = [] := by
  unfold innerExtAnnSeg
  rw [fixedRectGeoms_flatMap, List.flatMap_eq_nil_iff]
  intro k _
  cases hext : extLookup (innerExtData entries c) k <;> simp only [hext]
  · rfl
  · split_ifs <;> exact fixedRectGeoms_draw_num_symb _ _ _ _ _ _ _ _

theorem fixedRectGeoms_innerKeysSeg (entries : Table) (cx cy : ℚ)
    (c : Nat) :
    fixedRectGeoms (innerKeysSeg entries cx cy c) =
      keyGridRects (cx - (2 * 42 + 14) / 2) (cy - (3 * 30 + 2 * 6) / 2)
        42 30 14 6 := by
  unfold innerKeysSeg
  exact fixedRectGeoms_draw_6keys _ _ _ _ _ _ _

/-- The center cell's rectangles are the fixed 6-key grid. -/
theorem fixedRectGeoms_center (entries : Table) (cx cy : ℚ) :
    fixedRectGeoms (draw_center_cell entries cx cy) =
      keyGridRects (cx - (2 * 55 + 26) / 2) (cy - (3 * 42 + 2 * 8) / 2)
        55 42 26 8 := by
  unfold draw_center_cell
  rw [fixedRectGeoms_append, fixedRectGeoms_draw_6keys,
    fixedRectGeoms_flatMap]
  have h2 : ∀ (l : List (ℚ × ℚ × ℚ × ℚ)) (m : List Nat)
      (g : Nat → List (ℚ × ℚ × ℚ × ℚ)), (∀ k ∈ m, g k = []) →
      l ++ m.flatMap g = l := by
    intro l m g hg
    rw [List.flatMap_eq_nil_iff.mpr hg, List.append_nil]
  apply h2
  intro k _
  unfold centerAnnSeg
  dsimp only
  split_ifs <;>
    first
      | exact fixedRectGeoms_draw_num_symb _ _ _ _ _ _ _ _
      | rfl

theorem fixedRectGeoms_rect_cons (x y w h : ℚ) (f s : String)
    (sw rx : ℚ) (l : List Prim) (h0 : ¬ sw = 0) :
    fixedRectGeoms (Prim.rect x y w h f s sw rx :: l) =
      (x, y, w, h) :: fixedRectGeoms l := by
  simp [fixedRectGeoms, h0]

theorem fixedRectGeoms_outer (entries : Table) (cx cy : ℚ) (c : Nat)
    (cw ch : ℚ) :
    fixedRectGeoms (draw_outer_chord_cell entries cx cy c cw ch) =
      (cx - cw / 2, cy - ch / 2, cw, ch) ::
        keyGridRects (cx - (2 * 20 + 5) / 2)
          (cy - (3 * 15 + 2 * 3) / 2 - 2) 20 15 5 3 := by
  unfold draw_outer_chord_cell
  dsimp only
  split_ifs <;>
    norm_num [fixedRectGeoms_append, fixedRectGeoms_draw_6keys,
      fixedRectGeoms_draw_num_symb, fixedRectGeoms_nil,
      fixedRectGeoms_text_cons, fixedRectGeoms_rect_cons]

theorem fixedRectGeoms_direction (entries : Table) (cx cy : ℚ)
    (c : Nat) (cw ch : ℚ) :
    fixedRectGeoms (draw_direction_cell entries cx cy c cw ch) =
      (cx - cw / 2, cy - ch / 2, cw, ch) ::
        keyGridRects (cx - (2 * 16 + 4) / 2)
          (cy - (3 * 12 + 2 * 2) / 2 + 6) 16 12 4 2 := by
  unfold draw_direction_cell
  dsimp only
  split_ifs <;>
    norm_num [fixedRectGeoms_append, fixedRectGeoms_draw_6keys,
      fixedRectGeoms_draw_num_symb, fixedRectGeoms_nil,
      fixedRectGeoms_text_cons, fixedRectGeoms_rect_cons]

theorem fixedRectGeoms_mode (entries : Table) (cx cy : ℚ) (c : Nat)
    (label : String) (cw ch : ℚ) :
    fixedRectGeoms (draw_mode_cell entries cx cy c label cw ch) =
      (cx - cw / 2, cy - ch / 2, cw, ch) ::
        keyGridRects (cx - (2 * 16 + 4) / 2)
          (cy - (3 * 12 + 2 * 2) / 2 + 6) 16 12 4 2 := by
  unfold draw_mode_cell
  dsimp only
  norm_num [fixedRectGeoms_append, fixedRectGeoms_draw_6keys,
    fixedRectGeoms_draw_num_symb, fixedRectGeoms_nil,
    fixedRectGeoms_text_cons, fixedRectGeoms_rect_cons]

theorem fixedRectGeoms_control (entries : Table) (cx cy : ℚ) (c : Nat)
    (label : String) (cw ch : ℚ) :
    fixedRectGeoms (draw_control_cell entries cx cy c label cw ch) =
      (cx - cw / 2, cy - ch / 2, cw, ch) ::
        keyGridRects (cx - (2 * 16 + 4) / 2)
          (cy - (3 * 12 + 2 * 2) / 2 + 6) 16 12 4 2 := by
  unfold draw_control_cell
  dsimp only
  norm_num [fixedRectGeoms_append, fixedRectGeoms_draw_6keys,
    fixedRectGeoms_draw_num_symb, fixedRectGeoms_nil,
    fixedRectGeoms_text_cons, fixedRectGeoms_rect_cons]

/-- C4 (amended): the canvas size and the geometry of every rectangle
except the inner-cell floating badge (the only zero-stroke-width
rectangle) are independent of the entries' field values — indeed of
the whole table. -/
theorem rect_geometry_content_free
    (layout_id layout_name variant : String) (e1 e2 : Table) :
    fixedRectGeoms (generate_svg layout_id layout_name e1 variant).prims =
      fixedRectGeoms
        (generate_svg layout_id layout_name e2 variant).prims ∧
    (generate_svg layout_id layout_name e1 variant).width =
      (generate_svg layout_id layout_name e2 variant).width ∧
    (generate_svg layout_id layout_name e1 variant).height =
      (generate_svg layout_id layout_name e2 variant).height := by
  refine ⟨?_, rfl, rfl⟩
  simp only [generate_svg, titleSeg, mainBoxSeg, centerSeg, innerSeg,
    leftOuterSeg, rightOuterSeg, dirSeg, modeSeg, labelSeg, ctrlSeg,
    draw_inner_chord_cell, fixedRectGeoms_append, fixedRectGeoms_flatMap,
    fixedRectGeoms_comment_cons, fixedRectGeoms_text_cons,
    fixedRectGeoms_center, fixedRectGeoms_innerKeysSeg,
    fixedRectGeoms_innerBadgeSeg, fixedRectGeoms_innerExtAnnSeg,
    fixedRectGeoms_outer, fixedRectGeoms_direction, fixedRectGeoms_mode,
    fixedRectGeoms_control]

set_option maxRecDepth 40000 in
/-- C4 counterexample: two tables populating the same single chord and
differing only in the letter field's string value ("" against "Q")
emit different rectangle lists (the floating badge rectangle exists
only in the second), so rectangle geometry is not independent of the
entries' field string values. -/
theorem rect_geometry_cex :
    (rectGeoms (generate_svg "en" "English" abEmptyLetterTable
        "Standard").prims).length ≠
      (rectGeoms (generate_svg "en" "English" abLetterQTable
        "Standard").prims).length := by
  decide

/-! Canvas-bound infrastructure for C5. -/

theorem InBox_nil (W H : ℚ) : InBox W H [] := by
  intro p hp
  exact absurd hp (List.not_mem_nil p)

theorem InBox_cons {W H : ℚ} {p : Prim} {l : List Prim}
    (hp : PrimIn W H p) (hl : InBox W H l) : InBox W H (p :: l) := by
  intro q hq
  rcases List.mem_cons.mp hq with rfl | hq
  · exact hp
  · exact hl q hq

theorem InBox_append {W H : ℚ} {l1 l2 : List Prim}
    (h1 : InBox W H l1) (h2 : InBox W H l2) : InBox W H (l1 ++ l2) := by
  intro q hq
  rcases List.mem_append.mp hq with h | h
  · exact h1 q h
  · exact h2 q h

theorem InBox_append_left {W H : ℚ} {l1 l2 : List Prim}
    (h : InBox W H (l1 ++ l2)) : InBox W H l1 :=
  fun q hq => h q (List.mem_append.mpr (Or.inl hq))

theorem InBox_append_right {W H : ℚ} {l1 l2 : List Prim}
    (h : InBox W H (l1 ++ l2)) : InBox W H l2 :=
  fun q hq => h q (List.mem_append.mpr (Or.inr hq))

theorem InBox_cons_tail {W H : ℚ} {p : Prim} {l : List Prim}
    (h : InBox W H (p :: l)) : InBox W H l :=
  fun q hq => h q (List.mem_cons_of_mem p hq)

theorem InBox_flatMap {α : Type} {W H : ℚ} {l : List α}
    {f : α → List Prim} (h : ∀ a ∈ l, InBox W H (f a)) :
    InBox W H (l.flatMap f) := by
  intro q hq
  rcases List.mem_flatMap.mp hq with ⟨a, ha, hqa⟩
  exact h a ha q hqa

theorem InBox_of_flatMap {α : Type} {W H : ℚ} {l : List α}
    {f : α → List Prim} (h : InBox W H (l.flatMap f)) {a : α}
    (ha : a ∈ l) : InBox W H (f a) :=
  fun q hq => h q (List.mem_flatMap.mpr ⟨a, ha, hq⟩)

theorem InBox_ite {W H : ℚ} {c : Prop} [Decidable c] {l1 l2 : List Prim}
    (h1 : InBox W H l1) (h2 : InBox W H l2) :
    InBox W H (if c then l1 else l2) := by
  split_ifs <;> assumption

theorem InBox_comment {W H : ℚ} (s : String) {l : List Prim}
    (hl : InBox W H l) : InBox W H (Prim.comment s :: l) :=
  InBox_cons trivial hl

theorem InBox_draw_key {W H x y w h : ℚ} (ch : String) (p : Bool)
    (fs : ℤ) (tf : Option String) (d : Bool)
    (hw : 0 ≤ w) (hh : 0 ≤ h)
    (h1 : 0 ≤ x) (h2 : 0 ≤ y) (h3 : x + w ≤ W) (h4 : y + h ≤ H) :
    InBox W H (draw_key x y w h ch p fs tf d) := by
  unfold draw_key
  refine InBox_cons ?_
    (InBox_ite (InBox_cons ⟨by linarith, by linarith, by linarith,
      by linarith⟩ (InBox_nil W H)) (InBox_nil W H))
  split_ifs <;> exact ⟨h1, h2, h3, h4⟩

theorem InBox_draw_6keys {W H ox oy kw kh gx gy : ℚ}
    (f : Nat → KeyInfo) (hkw : 0 ≤ kw) (hkh : 0 ≤ kh) (hgx : 0 ≤ gx)
    (hgy : 0 ≤ gy) (h1 : 0 ≤ ox) (h2 : 0 ≤ oy)
    (h3 : ox + 2 * kw + gx ≤ W) (h4 : oy + 3 * kh + 2 * gy ≤ H) :
    InBox W H (draw_6keys ox oy kw kh gx gy (KEYS.map f)) := by
  unfold draw_6keys
  apply InBox_flatMap
  intro ki hki
  simp only [KEYS, List.map_cons, List.map_nil, List.zip_cons_cons,
    List.zip_nil_left, List.mem_cons, List.not_mem_nil, or_false] at hki
  rcases hki with rfl | rfl | rfl | rfl | rfl | rfl <;>
    refine InBox_draw_key _ _ _ _ _ hkw hkh ?_ ?_ ?_ ?_ <;>
    norm_num [KCOL, KROW, A, B, C, D, E, F] <;> linarith

theorem InBox_draw_num_symb {W H x yn ys : ℚ} (n s a : String)
    (ns ss : ℚ) (h1 : 0 ≤ x) (h2 : x ≤ W) (h3 : 0 ≤ yn) (h4 : yn ≤ H)
    (h5 : 0 ≤ ys) (h6 : ys ≤ H) :
    InBox W H (draw_num_symb x yn ys n s a ns ss) := by
  unfold draw_num_symb
  exact InBox_append
    (InBox_ite (InBox_cons ⟨h1, h3, h2, h4⟩ (InBox_nil W H))
      (InBox_nil W H))
    (InBox_ite (InBox_cons ⟨h1, h5, h2, h6⟩ (InBox_nil W H))
      (InBox_nil W H))

theorem InBox_outer {W H : ℚ} (entries : Table) (c : Nat)
    {cx cy cw ch : ℚ} (hcw : 45 ≤ cw) (hch : 55 ≤ ch)
    (h1 : 0 ≤ cx - cw / 2) (h2 : cx + cw / 2 ≤ W)
    (h3 : 0 ≤ cy - ch / 2) (h4 : cy + ch / 2 ≤ H) :
    InBox W H (draw_outer_chord_cell entries cx cy c cw ch) := by
  unfold draw_outer_chord_cell
  dsimp only
  refine InBox_append (InBox_append (InBox_append
    (InBox_cons ⟨h1, h3, by linarith, by linarith⟩ (InBox_nil W H))
    (InBox_ite (InBox_cons ⟨by linarith, by linarith, by linarith,
      by linarith⟩ (InBox_nil W H)) (InBox_nil W H)))
    (InBox_draw_6keys _ (by norm_num) (by norm_num) (by norm_num)
      (by norm_num) (by linarith) (by linarith) (by linarith)
      (by linarith)))
    (InBox_draw_num_symb _ _ _ _ _ (by linarith) (by linarith)
      (by linarith) (by linarith) (by linarith) (by linarith))

theorem InBox_direction {W H : ℚ} (entries : Table) (c : Nat)
    {cx cy cw ch : ℚ} (hcw : 36 ≤ cw) (hch : 52 ≤ ch)
    (h1 : 0 ≤ cx - cw / 2) (h2 : cx + cw / 2 ≤ W)
    (h3 : 0 ≤ cy - ch / 2) (h4 : cy + ch / 2 ≤ H) :
    InBox W H (draw_direction_cell entries cx cy c cw ch) := by
  unfold draw_direction_cell
  dsimp only
  refine InBox_append (InBox_append (InBox_append
    (InBox_cons ⟨h1, h3, by linarith, by linarith⟩ (InBox_nil W H))
    (InBox_draw_6keys _ (by norm_num) (by norm_num) (by norm_num)
      (by norm_num) (by linarith) (by linarith) (by linarith)
      (by linarith)))
    (InBox_ite (InBox_cons ⟨by linarith, by linarith, by linarith,
      by linarith⟩ (InBox_nil W H)) (InBox_nil W H)))
    (InBox_draw_num_symb _ _ _ _ _ (by linarith) (by linarith)
      (by linarith) (by linarith) (by linarith) (by linarith))

theorem InBox_mode {W H : ℚ} (entries : Table) (c : Nat)
    (label : String) {cx cy cw ch : ℚ} (hcw : 36 ≤ cw) (hch : 52 ≤ ch)
    (h1 : 0 ≤ cx - cw / 2) (h2 : cx + cw / 2 ≤ W)
    (h3 : 0 ≤ cy - ch / 2) (h4 : cy + ch / 2 ≤ H) :
    InBox W H (draw_mode_cell entries cx cy c label cw ch) := by
  unfold draw_mode_cell
  dsimp only
  refine InBox_append (InBox_append (InBox_append
    (InBox_cons ⟨h1, h3, by linarith, by linarith⟩ (InBox_nil W H))
    (InBox_draw_6keys _ (by norm_num) (by norm_num) (by norm_num)
      (by norm_num) (by linarith) (by linarith) (by linarith)
      (by linarith)))
    (InBox_cons ⟨by linarith, by linarith, by linarith, by linarith⟩
      (InBox_nil W H)))
    (InBox_draw_num_symb _ _ _ _ _ (by linarith) (by linarith)
      (by linarith) (by linarith) (by linarith) (by linarith))

theorem InBox_control {W H : ℚ} (entries : Table) (c : Nat)
    (label : String) {cx cy cw ch : ℚ} (hcw : 36 ≤ cw) (hch : 52 ≤ ch)
    (h1 : 0 ≤ cx - cw / 2) (h2 : cx + cw / 2 ≤ W)
    (h3 : 0 ≤ cy - ch / 2) (h4 : cy + ch / 2 ≤ H) :
    InBox W H (draw_control_cell entries cx cy c label cw ch) := by
  unfold draw_control_cell
  dsimp only
  refine InBox_append (InBox_append (InBox_append
    (InBox_cons ⟨h1, h3, by linarith, by linarith⟩ (InBox_nil W H))
    (InBox_draw_6keys _ (by norm_num) (by norm_num) (by norm_num)
      (by norm_num) (by linarith) (by linarith) (by linarith)
      (by linarith)))
    (InBox_cons ⟨by linarith, by linarith, by linarith, by linarith⟩
      (InBox_nil W H)))
    (InBox_draw_num_symb _ _ _ _ _ (by linarith) (by linarith)
      (by linarith) (by linarith) (by linarith) (by linarith))

theorem InBox_center {W H : ℚ} (entries : Table) {cx cy : ℚ}
    (h1 : 0 ≤ cx - 75) (h2 : cx + 75 ≤ W)
    (h3 : 0 ≤ cy - 71) (h4 : cy + 71 ≤ H) :
    InBox W H (draw_center_cell entries cx cy) := by
  unfold draw_center_cell
  dsimp only
  refine InBox_append
    (InBox_draw_6keys _ (by norm_num) (by norm_num) (by norm_num)
      (by norm_num) (by linarith) (by linarith) (by linarith)
      (by linarith))
    (InBox_flatMap ?_)
  intro k hk
  unfold centerAnnSeg
  dsimp only
  simp only [KEYS, List.mem_cons, List.not_mem_nil, or_false] at hk
  rcases hk with rfl | rfl | rfl | rfl | rfl | rfl <;>
    refine InBox_ite (InBox_ite
      (InBox_draw_num_symb _ _ _ _ _ ?_ ?_ ?_ ?_ ?_ ?_)
      (InBox_draw_num_symb _ _ _ _ _ ?_ ?_ ?_ ?_ ?_ ?_))
      (InBox_nil W H) <;>
    (try norm_num [KCOL, KROW, A, B, C, D, E, F]) <;> linarith

/-- Bound on the badge width for glyphs of length at most 79. -/
theorem inner_badge_w_le (s : String) (h : s.length ≤ 79) :
    max ((42 : ℚ) - 2)
      ((s.length : ℚ) * ((font_size_for s 16 : ℤ) : ℚ) * 0.7 + 8) ≤
      5057 / 10 := by
  rw [max_le_iff]
  refine ⟨by norm_num, ?_⟩
  have hc : ((s.length : ℚ)) ≤ 79 := by exact_mod_cast h
  have hc0 : (0 : ℚ) ≤ (s.length : ℚ) := by positivity
  simp only [font_size_for]
  split_ifs with a b d
  · have h1 : ((s.length : ℚ)) ≤ 1 := by exact_mod_cast a
    push_cast
    nlinarith
  · have h1 : ((s.length : ℚ)) = 2 := by exact_mod_cast b
    rw [show ((9 : ℤ) ⊔ (16 - 3)) = 13 from by decide]
    push_cast
    nlinarith
  · have h1 : ((s.length : ℚ)) ≤ 4 := by exact_mod_cast d
    rw [show ((8 : ℤ) ⊔ (16 - 5)) = 11 from by decide]
    push_cast
    nlinarith
  · rw [show ((7 : ℤ) ⊔ (16 - 7)) = 9 from by decide]
    push_cast
    nlinarith

/-- The badge font size at base 16 lies between 7 and 16. -/
theorem inner_badge_fs_bounds (s : String) :
    7 ≤ font_size_for s 16 ∧ font_size_for s 16 ≤ 16 := by
  simp only [font_size_for]
  split_ifs <;> norm_num

/-- Key columns are 0 or 1. -/
theorem KCOL_bounds (k : Nat) : 0 ≤ KCOL k ∧ KCOL k ≤ 1 := by
  unfold KCOL
  split_ifs <;> norm_num

/-- Key rows are at most 2. -/
theorem KROW_le (k : Nat) : KROW k ≤ 2 := by
  unfold KROW
  split_ifs <;> norm_num

/-- The sorted pressed rows (with default 0) are at most 2. -/
theorem pressedRows_bounds (c : Nat) :
    (pressedRows c).headD 0 ≤ 2 ∧ (pressedRows c).getLastD 0 ≤ 2 := by
  have hmem : ∀ x ∈ pressedRows c, x ≤ 2 := by
    intro x hx
    unfold pressedRows at hx
    have hx2 :=
      (List.perm_insertionSort (· ≤ ·) ((bits c).map KROW)).mem_iff.mp hx
    rcases List.mem_map.mp hx2 with ⟨k, _, rfl⟩
    exact KROW_le k
  constructor
  · cases hl : pressedRows c with
    | nil => simp
    | cons a t =>
      simp only [List.headD_cons]
      exact hmem a (hl ▸ List.mem_cons_self a t)
  · cases hl : pressedRows c with
    | nil => simp
    | cons a t =>
      have hmem2 : ∀ (x : ℕ) (u : List ℕ), (x :: u).getLastD 0 ∈ x :: u := by
        intro x u
        induction u generalizing x with
        | nil => simp [List.getLastD]
        | cons b t2 ih =>
          rw [show (x :: b :: t2).getLastD 0 = (b :: t2).getLastD 0 from
            rfl]
          exact List.mem_cons_of_mem x (ih b)
      exact hmem _ (hl ▸ hmem2 a t)

set_option maxHeartbeats 2000000 in
theorem InBox_innerBadgeSeg {W H : ℚ} (entries : Table) (c : Nat)
    {cx cy : ℚ} (hlen : (chordChar entries c).length ≤ 79)
    (h1 : 2989 / 10 ≤ cx) (h2 : cx + 2989 / 10 ≤ W)
    (h3 : 51 ≤ cy) (h4 : cy + 51 ≤ H) :
    InBox W H (innerBadgeSeg entries cx cy c) := by
  have hbw := inner_badge_w_le (chordChar entries c) hlen
  have hfs := inner_badge_fs_bounds (chordChar entries c)
  have hfs1 : (7 : ℚ) ≤
      ((font_size_for (chordChar entries c) 16 : ℤ) : ℚ) := by
    exact_mod_cast hfs.1
  have hfs2 : ((font_size_for (chordChar entries c) 16 : ℤ) : ℚ) ≤ 16 := by
    exact_mod_cast hfs.2
  have hcol := KCOL_bounds ((bits c).headD 0)
  have hr := pressedRows_bounds c
  have hr1 : (((pressedRows c).headD 0 : ℕ) : ℚ) ≤ 2 := by
    exact_mod_cast hr.1
  have hr2 : (((pressedRows c).getLastD 0 : ℕ) : ℚ) ≤ 2 := by
    exact_mod_cast hr.2
  have hr1n : (0 : ℚ) ≤ (((pressedRows c).headD 0 : ℕ) : ℚ) := by
    positivity
  have hr2n : (0 : ℚ) ≤ (((pressedRows c).getLastD 0 : ℕ) : ℚ) := by
    positivity
  have hbw0 : (40 : ℚ) ≤ max ((42 : ℚ) - 2)
      (((chordChar entries c).length : ℚ) *
        ((font_size_for (chordChar entries c) 16 : ℤ) : ℚ) * 0.7 + 8) := by
    rw [le_max_iff]
    left
    norm_num
  unfold innerBadgeSeg
  dsimp only
  split_ifs <;>
    first
      | exact InBox_nil W H
      | (refine InBox_append
          (InBox_cons ⟨?_, ?_, ?_, ?_⟩
            (InBox_cons ⟨?_, ?_, ?_, ?_⟩ (InBox_nil W H)))
          (InBox_draw_num_symb _ _ _ _ _ ?_ ?_ ?_ ?_ ?_ ?_) <;>
         linarith [hbw, hbw0, hfs1, hfs2, hcol.1, hcol.2, hr1, hr2,
           hr1n, hr2n])

theorem InBox_innerExtAnnSeg {W H : ℚ} (entries : Table) (c : Nat)
    {cx cy : ℚ} (h1 : 53 ≤ cx) (h2 : cx + 53 ≤ W)
    (h3 : 51 ≤ cy) (h4 : cy + 51 ≤ H) :
    InBox W H (innerExtAnnSeg entries cx cy c) := by
  unfold innerExtAnnSeg
  dsimp only
  apply InBox_flatMap
  intro k hk
  have hk6 : k = A ∨ k = B ∨ k = C ∨ k = D ∨ k = E ∨ k = F := by
    unfold innerExtSide at hk
    split_ifs at hk <;>
      simp only [RIGHTKEYS, LEFTKEYS, List.mem_cons,
        List.not_mem_nil, or_false] at hk <;> tauto
  rcases hk6 with rfl | rfl | rfl | rfl | rfl | rfl <;>
    (rcases hext : extLookup (innerExtData entries c) _ with _ | t <;>
      simp only [hext]) <;>
    first
      | exact InBox_nil W H
      | (refine InBox_ite
          (InBox_draw_num_symb _ _ _ _ _ ?_ ?_ ?_ ?_ ?_ ?_)
          (InBox_draw_num_symb _ _ _ _ _ ?_ ?_ ?_ ?_ ?_ ?_) <;>
         norm_num [KCOL, KROW, A, B, C, D, E, F] <;> linarith)

theorem InBox_inner {W H : ℚ} (entries : Table) (c : Nat) {cx cy : ℚ}
    (hlen : (chordChar entries c).length ≤ 79)
    (h1 : 2989 / 10 ≤ cx) (h2 : cx + 2989 / 10 ≤ W)
    (h3 : 51 ≤ cy) (h4 : cy + 51 ≤ H) :
    InBox W H (draw_inner_chord_cell entries cx cy c) := by
  unfold draw_inner_chord_cell
  refine InBox_append (InBox_append ?_ ?_) ?_
  · unfold innerKeysSeg
    dsimp only
    exact InBox_draw_6keys _ (by norm_num) (by norm_num) (by norm_num)
      (by norm_num) (by linarith) (by linarith) (by linarith)
      (by linarith)
  · exact InBox_innerBadgeSeg entries c hlen h1 h2 h3 h4
  · exact InBox_innerExtAnnSeg entries c (by linarith) (by linarith)
      h3 h4

/-- C5 (amended): for every layout table whose resolved letter glyphs
have length at most 79, every primitive of the generated document lies
inside the declared canvas. -/
theorem prims_in_canvas (layout_id layout_name variant : String)
    (e : Table) (hlen : ∀ c, (chordChar e c).length ≤ 79) :
    InBox ((generate_svg layout_id layout_name e variant).width : ℚ)
      ((generate_svg layout_id layout_name e variant).height : ℚ)
      (generate_svg layout_id layout_name e variant).prims := by
  unfold generate_svg
  dsimp only
  have hW : ((total_w : ℤ) : ℚ) = 1177 := by
    norm_num [total_w, outer_right_x, main_box_x, outer_panel_w,
      outer_cw, outer_gap, main_w, col_w, main_pad]
  have hH : ((total_h : ℤ) : ℚ) = 834 := by
    norm_num [total_h, ctrl_row_y, below_y, main_box_y, title_h,
      main_h, row_h, main_pad, below_gap, dir_block_h_est, dir_ch,
      dir_gy, ctrl_row_gap]
  rw [hW, hH]
  have hmbx : main_box_x = 234 := by
    norm_num [main_box_x, outer_panel_w, outer_cw, outer_gap]
  have hcolx : col_x = [0, 130, 255, 430, 555] := by
    norm_num [col_x, col_w, List.scanl_cons, List.scanl_nil, List.dropLast]
  have hrowy : row_y = [0, 118, 258] := by
    norm_num [row_y, row_h, List.scanl_cons, List.scanl_nil, List.dropLast]
  have hby : below_y = 500 := by
    norm_num [below_y, main_box_y, title_h, main_h, row_h, main_pad,
      below_gap]
  have hcry : ctrl_row_y = 719 := by
    norm_num [ctrl_row_y, hby, dir_block_h_est, dir_ch, dir_gy,
      ctrl_row_gap]
  have hdox : dir_ox = 506 := by
    norm_num [dir_ox, dir_center_x, hmbx, main_w, col_w, main_pad,
      dir_block_w, dir_cw, dir_gx]
  have habcx : abc_cx = 453 := by
    norm_num [abc_cx, hdox, dir_cw]
  have hdefx : def_cx = 728 := by
    norm_num [def_cx, hdox, dir_block_w, dir_cw, dir_gx]
  have hmsx : mode_start_x = 797 := by
    norm_num [mode_start_x, hdefx, dir_cw]
  have hdmy : dir_mid_y = 1195 / 2 := by
    norm_num [dir_mid_y, hby, dir_block_h, dir_ch, dir_gy]
  have horx : outer_right_x = 963 := by
    norm_num [outer_right_x, hmbx, main_w, col_w, main_pad, outer_gap]
  have hovg : outer_v_gap = 25 := by
    norm_num [outer_v_gap, outer_v_total, main_h, row_h, main_pad,
      outer_ch]
  have hcsx : ctrl_start_x = 571 / 2 := by
    norm_num [ctrl_start_x, hmbx, main_w, col_w, main_pad,
      ctrl_total_w, ctrl_chords, ctrl_cw, ctrl_gap]
  have hncx : nav_center_x = 1181 / 2 := by
    norm_num [nav_center_x, habcx, hdefx]
  simp only [titleSeg, mainBoxSeg, centerSeg, innerSeg, leftOuterSeg,
    rightOuterSeg, dirSeg, modeSeg, labelSeg, ctrlSeg]
  refine InBox_append (InBox_append (InBox_append (InBox_append
    (InBox_append (InBox_append (InBox_append (InBox_append
    (InBox_append ?_ ?_) ?_) ?_) ?_) ?_) ?_) ?_) ?_) ?_
  · exact InBox_cons ⟨by norm_num [hW], by norm_num, by norm_num [hW],
      by norm_num⟩ (InBox_nil _ _)
  · exact InBox_cons ⟨by norm_num [hmbx, main_pad, main_box_y, title_h],
      by norm_num [hmbx, main_pad, main_box_y, title_h],
      by norm_num [hmbx, main_pad, main_box_y, title_h, main_w, col_w,
        main_h, row_h],
      by norm_num [hmbx, main_pad, main_box_y, title_h, main_w, col_w,
        main_h, row_h]⟩ (InBox_nil _ _)
  · refine InBox_comment _ (InBox_center e ?_ ?_ ?_ ?_) <;>
      norm_num [hmbx, hcolx, hrowy, col_w, row_h, main_box_y, title_h,
        List.getD_cons_zero, List.getD_cons_succ]
  · refine InBox_flatMap ?_
    intro rc hrc
    simp only [inner_chords, List.mem_cons, List.not_mem_nil,
      or_false] at hrc
    rcases hrc with rfl | rfl | rfl | rfl | rfl | rfl <;>
      refine InBox_comment _ (InBox_inner e _ (hlen _) ?_ ?_ ?_ ?_) <;>
      norm_num [hmbx, hcolx, hrowy, col_w, row_h, main_box_y, title_h,
        List.getD_cons_zero, List.getD_cons_succ]
  · refine InBox_flatMap ?_
    intro rc hrc
    simp only [left_outer, List.mem_cons, List.not_mem_nil,
      or_false] at hrc
    rcases hrc with rfl | rfl | rfl | rfl | rfl | rfl <;>
      refine InBox_comment _
        (InBox_outer e _ (by norm_num [outer_cw])
          (by norm_num [outer_ch]) ?_ ?_ ?_ ?_) <;>
      norm_num [outer_left_x, outer_cw, outer_ch, hovg, main_box_y,
        title_h, main_pad]
  · refine InBox_flatMap ?_
    intro rc hrc
    simp only [right_outer, List.mem_cons, List.not_mem_nil,
      or_false] at hrc
    rcases hrc with rfl | rfl | rfl | rfl | rfl | rfl <;>
      refine InBox_comment _
        (InBox_outer e _ (by norm_num [outer_cw])
          (by norm_num [outer_ch]) ?_ ?_ ?_ ?_) <;>
      norm_num [horx, outer_cw, outer_ch, hovg, main_box_y, title_h,
        main_pad]
  · refine InBox_comment _ (InBox_append (InBox_append
      (InBox_flatMap ?_) ?_) ?_)
    · intro rc hrc
      simp only [dir_chords, List.mem_cons, List.not_mem_nil,
        or_false] at hrc
      rcases hrc with rfl | rfl | rfl | rfl <;>
        refine InBox_direction e _ (by norm_num [dir_cw])
          (by norm_num [dir_ch]) ?_ ?_ ?_ ?_ <;>
        norm_num [hdox, hby, dir_cw, dir_ch, dir_gx, dir_gy]
    · refine InBox_direction e _ (by norm_num [dir_cw])
        (by norm_num [dir_ch]) ?_ ?_ ?_ ?_ <;>
      norm_num [habcx, hdmy, dir_cw, dir_ch]
    · refine InBox_direction e _ (by norm_num [dir_cw])
        (by norm_num [dir_ch]) ?_ ?_ ?_ ?_ <;>
      norm_num [hdefx, hdmy, dir_cw, dir_ch]
  · refine InBox_comment _ (InBox_flatMap ?_)
    intro il hil
    simp [modes, List.enum, List.enumFrom] at hil
    rcases hil with rfl | rfl | rfl <;>
      refine InBox_mode e _ _ (by norm_num [mode_cw])
        (by norm_num [dir_ch]) ?_ ?_ ?_ ?_ <;>
      norm_num [hmsx, hdmy, mode_cw, mode_gap, dir_ch]
  · refine InBox_cons ⟨?_, ?_, ?_, ?_⟩
      (InBox_cons ⟨?_, ?_, ?_, ?_⟩ (InBox_nil _ _)) <;>
      norm_num [hncx, hby, hmsx, mode_cw, mode_gap]
  · refine InBox_comment _ (InBox_cons ⟨?_, ?_, ?_, ?_⟩
      (InBox_flatMap ?_))
    · norm_num [hcsx, hcry, ctrl_total_w, ctrl_chords, ctrl_cw,
        ctrl_gap]
    · norm_num [hcsx, hcry, ctrl_total_w, ctrl_chords, ctrl_cw,
        ctrl_gap]
    · norm_num [hcsx, hcry, ctrl_total_w, ctrl_chords, ctrl_cw,
        ctrl_gap]
    · norm_num [hcsx, hcry, ctrl_total_w, ctrl_chords, ctrl_cw,
        ctrl_gap]
    intro il hil
    simp [ctrl_chords, List.enum, List.enumFrom] at hil
    rcases hil with rfl | rfl | rfl | rfl | rfl | rfl <;>
      refine InBox_control e _ _ (by norm_num [ctrl_cw])
        (by norm_num [dir_ch]) ?_ ?_ ?_ ?_ <;>
      norm_num [hcsx, hcry, ctrl_cw, ctrl_gap, dir_ch]

/-- Witness for C5 on the empty table. -/
theorem prims_in_canvas_witness :
    (∀ c, (chordChar emptyTable c).length ≤ 79) ∧
    InBox ((generate_svg "en" "English" emptyTable "Standard").width : ℚ)
      ((generate_svg "en" "English" emptyTable "Standard").height : ℚ)
      (generate_svg "en" "English" emptyTable "Standard").prims :=
  ⟨fun c => by norm_num [chordChar, emptyTable],
   prims_in_canvas "en" "English" "Standard" emptyTable
     (fun c => by norm_num [chordChar, emptyTable])⟩

/-- C5 counterexample: with a 100-character letter value on chord A|C
the badge rectangle of the leftmost inner cell starts at a negative x
coordinate, so not every primitive lies inside the canvas for
arbitrary field lengths. -/
theorem prims_in_canvas_cex :
    ¬ InBox
      ((generate_svg "en" "English" hugeGlyphTable "Standard").width : ℚ)
      ((generate_svg "en" "English" hugeGlyphTable "Standard").height : ℚ)
      (generate_svg "en" "English" hugeGlyphTable "Standard").prims := by
  intro h
  unfold generate_svg at h
  dsimp only at h
  have h7 := InBox_append_right (InBox_append_left (InBox_append_left
    (InBox_append_left (InBox_append_left (InBox_append_left
      (InBox_append_left h))))))
  unfold innerSeg at h7
  have h8 := InBox_of_flatMap h7
    (show ((1, 0, A ||| C) : ℕ × ℕ × ℕ) ∈ inner_chords by
      simp [inner_chords])
  have h9 := InBox_cons_tail h8
  unfold draw_inner_chord_cell at h9
  have h10 := InBox_append_right (InBox_append_left h9)
  have hch : chordChar hugeGlyphTable (A ||| C) ≠ "" := by decide
  unfold innerBadgeSeg at h10
  dsimp only at h10
  rw [if_pos hch] at h10
  have hrect := h10 _ (List.mem_append.mpr (Or.inl
    (List.mem_cons_self _ _)))
  obtain ⟨hx, -, -, -⟩ := hrect
  have hln : (chordChar hugeGlyphTable (A ||| C)).length = 100 := by
    decide
  have hfs : font_size_for (chordChar hugeGlyphTable (A ||| C)) 16 = 9 := by
    decide
  have honl : onLeft (A ||| C) = true := by decide
  have hrows : pressedRows (A ||| C) = [0, 2] := by decide
  have hbits : (bits (A ||| C)).headD 0 = 1 := by decide
  rw [hln, hfs, honl, hrows, hbits] at hx
  norm_num [KCOL, A, main_box_x, outer_panel_w, outer_cw, outer_gap,
    col_x, col_w, List.scanl_cons, List.scanl_nil, List.dropLast,
    List.getD_cons_zero, List.getD_cons_succ, List.getLastD,
    List.headD, max_def] at hx

end GKOS
